import Mathlib

/-!
# Session manager of the e-commerce front-end (`frontend/js/authService.js`)

A shallow embedding of the class `AuthService`: the five session fields, the two
`localStorage` keys it touches, the timers it arms with `setTimeout`, the token-endpoint
requests it has in flight, and a trace of the effects it performs.

Conventions of the embedding
* JavaScript values that can reach a token slot are `JsVal` (`undefined` or a string).
* `jwt_decode`, `String.prototype.toUpperCase` and `window.location` are not part of the
  repository; they are fields of `Env`.  `jwt_decode` throwing is `none`.
* The decoded claims carry the three fields the code reads, typed as the token endpoint's
  wire contract types them.
* `Math.floor(Date.now() / 1000)` is an explicit argument of every function that reads it.
* An `async` method is split at its single `await`: the part before it issues the request,
  the part after it (`..._resume`) runs when the response arrives.
* A callback is an effect recorded in the trace together with the session and storage it
  could observe; it does not write the session, and it may throw.

The second front-end (`frontend/src/services/keycloak.js` and `api.js`) is embedded in the
namespace `KeycloakService`: the module variables of `keycloak.js`, the settlement of the
promises of `keycloak-js`, and the request interceptor of the product API client.
-/

namespace AuthService

/-! ## Values -/

/-- A JavaScript value as it reaches a token slot: `undefined` or a string. -/
inductive JsVal where
  | undefined
  | str (s : String)
  deriving DecidableEq, Repr

/-- JavaScript truthiness: `undefined` and `''` are falsy. -/
def JsVal.truthy : JsVal → Bool
  | .undefined => false
  | .str s => s != ""

/-- String conversion as done by `localStorage.setItem` and by template literals. -/
def JsVal.toStr : JsVal → String
  | .undefined => "undefined"
  | .str s => s

/-- The claims of a decoded access token that `AuthService` reads.
`none` is an absent claim; `realm_roles` is `realm_access.roles`. -/
structure Claims where
  preferred_username : Option String
  realm_roles : Option (List String)
  exp : Option Int
  deriving DecidableEq, Repr

/-- A callback handed to `AuthService`, identified by name; `throws` tells whether running
it raises an exception. -/
structure Callback where
  name : String
  throws : Bool
  deriving DecidableEq, Repr

/-- The arrow function `() => {}` that the refresh timer passes as `onAuthFailed`. -/
def noop : Callback := ⟨"() => {}", false⟩

/-- What the code takes from its surroundings: the `jwt_decode` library on strings
(`none` when it throws), `toUpperCase`, and `window.location.origin + pathname`. -/
structure Env where
  decode : String → Option Claims
  toUpperCase : String → String
  REDIRECT_URI : String

/-- The global `jwt_decode`: it throws on anything that is not a string. -/
def Env.jwt_decode (env : Env) : JsVal → Option Claims
  | .undefined => none
  | .str s => env.decode s

/-! ## Constants (lines 5-12) -/

def API_GATEWAY_HOST : String := "http://localhost:8000"
def KEYCLOAK_HOST : String := API_GATEWAY_HOST ++ "/auth"
def AUTH_URL : String := KEYCLOAK_HOST ++ "/realms/ecommerce/protocol/openid-connect/auth"
def TOKEN_URL : String := KEYCLOAK_HOST ++ "/realms/ecommerce/protocol/openid-connect/token"
def LOGOUT_URL : String := KEYCLOAK_HOST ++ "/realms/ecommerce/protocol/openid-connect/logout"
def CLIENT_ID : String := "ecommerce-app"

/-! ## State -/

/-- The fields of the `AuthService` instance. -/
structure Session where
  accessToken : JsVal
  refreshToken : JsVal
  authenticated : Bool
  username : String
  userRoles : List String
  deriving DecidableEq, Repr

/-- The two `localStorage` entries the class reads and writes; `none` is a missing key. -/
structure Storage where
  access_token : Option String
  refresh_token : Option String
  deriving DecidableEq, Repr

/-- A timer armed by `setTimeout` in `handleSuccessfulAuth` and not yet fired: its delay in
milliseconds as passed to `setTimeout`, and the two captured variables of its closure. -/
structure Timer where
  delayMs : Int
  refreshTokenValue : JsVal
  callback : Option Callback
  deriving DecidableEq, Repr

/-- The form body posted to the token endpoint (besides `client_id`). -/
inductive Grant where
  | authorization_code (code : String) (redirect_uri : String)
  | refresh_token (refreshTokenValue : JsVal)
  deriving DecidableEq, Repr

/-- A token-endpoint request in flight, with the callbacks its continuation holds. -/
structure Pending where
  grant : Grant
  onAuthSuccess : Option Callback
  onAuthFailed : Callback
  deriving DecidableEq, Repr

/-- The outcome of `axios.post`.  `body = none` is a response whose `data` is `null` or
`undefined`; otherwise the two fields destructured from it, `undefined` when missing. -/
inductive Response where
  | networkError
  | http (status : Nat) (body : Option (JsVal × JsVal))
  deriving DecidableEq, Repr

/-- The default `validateStatus` of axios: the promise rejects unless `200 ≤ status < 300`. -/
def Response.rejected : Response → Bool
  | .networkError => true
  | .http status _ => !(200 ≤ status && status < 300)

/-- An effect performed by the class, in program order. -/
inductive Event where
  | setItem (key value : String)
  | removeItem (key : String)
  | post (url : String) (grant : Grant)
  | setTimeout (timer : Timer)
  | call (cb : Callback) (session : Session) (storage : Storage)
  | navigate (url : String) (searchParams : List (String × String))
  deriving DecidableEq, Repr

/-- Everything the class can read or change. -/
structure World where
  session : Session
  storage : Storage
  timers : List Timer
  requests : List Pending
  trace : List Event
  deriving DecidableEq, Repr

/-- The session built by the constructor (lines 22-28). -/
def Session.empty : Session :=
  { accessToken := .str "", refreshToken := .str "", authenticated := false,
    username := "", userRoles := [] }

/-- A freshly loaded page over a given `localStorage`. -/
def World.init (storage : Storage) : World :=
  { session := Session.empty, storage := storage, timers := [], requests := [], trace := [] }

/-! ## Methods -/

/-- Running a callback: the call is recorded with what the callback can see. -/
def invoke (cb : Callback) (w : World) : World :=
  { w with trace := w.trace ++ [.call cb w.session w.storage] }

/-- `debugAuthToken` (lines 31-67): console output only, every exception caught inside. -/
def debugAuthToken (_env : Env) (_token : JsVal) (w : World) : World := w

/-- `clearTokens` (lines 177-185). -/
def clearTokens (w : World) : World :=
  { w with
    storage := { access_token := none, refresh_token := none }
    session := Session.empty
    trace := w.trace ++ [.removeItem "access_token", .removeItem "refresh_token"] }

/-- `login` (lines 70-78). -/
def login (env : Env) (w : World) : World :=
  { w with trace := w.trace ++ [.navigate AUTH_URL
      [("client_id", CLIENT_ID), ("redirect_uri", env.REDIRECT_URI),
       ("response_type", "code"), ("scope", "openid")]] }

/-- `logout` (lines 80-90). -/
def logout (env : Env) (w : World) : World :=
  let w1 := clearTokens w
  { w1 with trace := w1.trace ++ [.navigate LOGOUT_URL
      [("client_id", CLIENT_ID), ("post_logout_redirect_uri", env.REDIRECT_URI)]] }

/-- The expression `decodedToken.preferred_username || 'User'` (line 152). -/
def usernameOf (c : Claims) : String :=
  match c.preferred_username with
  | some u => if u != "" then u else "User"
  | none => "User"

/-- The role mapping of line 156. -/
def mapRoles (env : Env) (roles : List String) : List String :=
  roles.map (fun role => "ROLE_" ++ env.toUpperCase role)

/-- The test `expiresIn > 0` of lines 160-161; with `exp` absent `expiresIn` is `NaN` and the
test is false. -/
def expiresIn (c : Claims) (now : Int) : Option Int :=
  c.exp.map (fun e => e - now)

/-- The body of the `try` block of `handleSuccessfulAuth` (lines 151-170) once the token has
been decoded; the `catch` (lines 171-174) is reached when the callback throws. -/
def afterDecode (env : Env) (now : Int) (refreshTokenValue : JsVal)
    (callback : Option Callback) (c : Claims) (w : World) : World :=
  let w1 := { w with session := { w.session with username := usernameOf c } }
  let w2 := match c.realm_roles with
    | some roles => { w1 with session := { w1.session with userRoles := mapRoles env roles } }
    | none => w1
  let w3 := match expiresIn c now with
    | some d =>
      if d > 0 then
        let t : Timer := ⟨(d - 30) * 1000, refreshTokenValue, callback⟩
        { w2 with timers := w2.timers ++ [t], trace := w2.trace ++ [.setTimeout t] }
      else w2
    | none => w2
  match callback with
  | some cb =>
    let w4 := invoke cb w3
    if cb.throws then clearTokens w4 else w4
  | none => w3

/-- `handleSuccessfulAuth` (lines 136-175). -/
def handleSuccessfulAuth (env : Env) (now : Int) (accessTokenValue refreshTokenValue : JsVal)
    (callback : Option Callback) (w : World) : World :=
  let w1 := { w with
    session := { w.session with accessToken := accessTokenValue,
                                refreshToken := refreshTokenValue }
    storage := { access_token := some accessTokenValue.toStr,
                 refresh_token := some refreshTokenValue.toStr }
    trace := w.trace ++ [.setItem "access_token" accessTokenValue.toStr,
                         .setItem "refresh_token" refreshTokenValue.toStr] }
  let w2 := debugAuthToken env accessTokenValue w1
  let w3 := { w2 with session := { w2.session with authenticated := true } }
  match env.jwt_decode accessTokenValue with
  | some c => afterDecode env now refreshTokenValue callback c w3
  | none => clearTokens w3

/-- `exchangeCodeForTokens` up to its `await` (lines 93-104): the request is issued. -/
def exchangeCodeForTokens (env : Env) (code : String) (onAuthSuccess : Option Callback)
    (onAuthFailed : Callback) (w : World) : World :=
  let g := Grant.authorization_code code env.REDIRECT_URI
  { w with trace := w.trace ++ [.post TOKEN_URL g]
           requests := w.requests ++ [⟨g, onAuthSuccess, onAuthFailed⟩] }

/-- `exchangeCodeForTokens` after its `await` (lines 106-111). -/
def exchangeCodeForTokens_resume (env : Env) (now : Int) (resp : Response)
    (onAuthSuccess : Option Callback) (onAuthFailed : Callback) (w : World) : World :=
  if resp.rejected then invoke onAuthFailed w
  else match resp with
    | .http _ (some (access_token, refresh_token)) =>
      handleSuccessfulAuth env now access_token refresh_token onAuthSuccess w
    | _ => invoke onAuthFailed w

/-- `refreshAccessToken` up to its `await` (lines 115-125): the request is issued. -/
def refreshAccessToken (refreshTokenValue : JsVal) (onAuthSuccess : Option Callback)
    (onAuthFailed : Callback) (w : World) : World :=
  let g := Grant.refresh_token refreshTokenValue
  { w with trace := w.trace ++ [.post TOKEN_URL g]
           requests := w.requests ++ [⟨g, onAuthSuccess, onAuthFailed⟩] }

/-- `refreshAccessToken` after its `await` (lines 127-133). -/
def refreshAccessToken_resume (env : Env) (now : Int) (resp : Response)
    (onAuthSuccess : Option Callback) (onAuthFailed : Callback) (w : World) : World :=
  if resp.rejected then invoke onAuthFailed (clearTokens w)
  else match resp with
    | .http _ (some (access_token, refresh_token)) =>
      handleSuccessfulAuth env now access_token refresh_token onAuthSuccess w
    | _ => invoke onAuthFailed (clearTokens w)

/-- `checkAuth` (lines 187-215).  `now` is the clock read at line 199, `now2` the clock read
by `handleSuccessfulAuth` when line 202 calls it. -/
def checkAuth (env : Env) (now now2 : Int) (onAuthSuccess : Option Callback)
    (onAuthFailed : Callback) (w : World) : World :=
  match w.storage.access_token, w.storage.refresh_token with
  | some storedToken, some storedRefresh =>
    if storedToken != "" && storedRefresh != "" then
      let w1 := { w with session := { w.session with accessToken := .str storedToken,
                                                     refreshToken := .str storedRefresh } }
      match env.jwt_decode (.str storedToken) with
      | some decodedToken =>
        if decodedToken.exp.any (fun e => e > now) then
          handleSuccessfulAuth env now2 (.str storedToken) (.str storedRefresh) onAuthSuccess w1
        else
          refreshAccessToken (.str storedRefresh) onAuthSuccess onAuthFailed w1
      | none => invoke onAuthFailed (clearTokens w1)
    else invoke onAuthFailed w
  | _, _ => invoke onAuthFailed w

/-- `isAdmin` (lines 217-219). -/
def isAdmin (s : Session) : Bool :=
  s.userRoles.contains "ROLE_ADMIN"

/-- `getAuthHeader` (lines 221-223): the returned object as a list of its entries. -/
def getAuthHeader (s : Session) : List (String × String) :=
  if s.accessToken.truthy then [("Authorization", "Bearer " ++ s.accessToken.toStr)] else []

/-! ## Sequences of operations -/

/-- What can happen to the page: a method is called, a request in flight is answered, or a
pending timer fires. -/
inductive Op where
  | login
  | logout
  | checkAuth (now now2 : Int) (onAuthSuccess : Option Callback) (onAuthFailed : Callback)
  | exchangeCodeForTokens (code : String) (onAuthSuccess : Option Callback)
      (onAuthFailed : Callback)
  | refreshAccessToken (refreshTokenValue : JsVal) (onAuthSuccess : Option Callback)
      (onAuthFailed : Callback)
  | respond (i : Nat) (resp : Response) (now : Int)
  | fire (i : Nat)
  deriving DecidableEq, Repr

/-- The continuation of a request in flight, run on its response. -/
def resume (env : Env) (now : Int) (resp : Response) (p : Pending) (w : World) : World :=
  match p.grant with
  | .authorization_code _ _ =>
    exchangeCodeForTokens_resume env now resp p.onAuthSuccess p.onAuthFailed w
  | .refresh_token _ =>
    refreshAccessToken_resume env now resp p.onAuthSuccess p.onAuthFailed w

/-- One operation. Answering a request or firing a timer that does not exist does nothing. -/
def step (env : Env) (w : World) : Op → World
  | .login => login env w
  | .logout => logout env w
  | .checkAuth now now2 s f => checkAuth env now now2 s f w
  | .exchangeCodeForTokens code s f => exchangeCodeForTokens env code s f w
  | .refreshAccessToken r s f => refreshAccessToken r s f w
  | .respond i resp now =>
    match w.requests.get? i with
    | some p => resume env now resp p { w with requests := w.requests.eraseIdx i }
    | none => w
  | .fire i =>
    match w.timers.get? i with
    | some t =>
      refreshAccessToken t.refreshTokenValue t.callback noop
        { w with timers := w.timers.eraseIdx i }
    | none => w

/-- A sequence of operations, left to right. -/
def run (env : Env) (w : World) (ops : List Op) : World :=
  ops.foldl (step env) w

/-- The states reached from a freshly loaded page. -/
def Reachable (env : Env) (w : World) : Prop :=
  ∃ storage ops, run env (World.init storage) ops = w

/-- The request `p` was issued by `refreshAccessToken`. -/
def Pending.isRefresh (p : Pending) : Bool :=
  match p.grant with
  | .refresh_token _ => true
  | .authorization_code _ _ => false

/-- A refresh request is in flight. -/
def refreshPending (w : World) : Bool :=
  w.requests.any Pending.isRefresh

/-- What holds in every reachable state (for a decoder that rejects `''`): an authenticated
session holds a non-empty token, and a non-empty token in an unauthenticated session means
that a refresh is in flight. -/
def Inv (w : World) : Prop :=
  (w.session.authenticated = true → w.session.accessToken.truthy = true) ∧
  (refreshPending w = false → w.session.accessToken.truthy = true →
    w.session.authenticated = true)

/-! ## A concrete environment for evaluating the model -/

/-- Upper-casing of ASCII letters, on which it agrees with `toUpperCase`. -/
def asciiUpper (s : String) : String := ⟨s.data.map Char.toUpper⟩

/-- A decoder that knows four tokens and throws on everything else. -/
def demoDecode : String → Option Claims
  | "alice.admin.1000" => some ⟨some "alice", some ["admin"], some 1000⟩
  | "bob.Admin.1000" => some ⟨some "bob", some ["Admin"], some 1000⟩
  | "carol.noroles.1000" => some ⟨some "carol", none, some 1000⟩
  | "dave.noexp" => some ⟨some "dave", some ["user"], none⟩
  | _ => none

def demoEnv : Env := ⟨demoDecode, asciiUpper, "http://localhost:8000/"⟩

def onSuccess : Callback := ⟨"onAuthSuccess", false⟩
def onFailed : Callback := ⟨"onAuthFailed", false⟩

/-- A page loaded over an empty `localStorage`. -/
def freshWorld : World := World.init ⟨none, none⟩

/-- A page loaded over a persisted pair whose access token expires at second 1000. -/
def aliceWorld : World := World.init ⟨some "alice.admin.1000", some "r1"⟩

/-- The token-endpoint response `200` with body fields `access_token` and `refresh_token`. -/
def ok200 (access_token refresh_token : JsVal) : Response :=
  .http 200 (some (access_token, refresh_token))

/-- The page after `checkAuth`, at second 2000, found the persisted pair of `aliceWorld`. -/
def pendingRefreshWorld : World :=
  run demoEnv aliceWorld [.checkAuth 2000 2000 (some onSuccess) onFailed]

/-- The page after `checkAuth`, at second 500, found the persisted pair of `aliceWorld`. -/
def authedWorld : World :=
  run demoEnv aliceWorld [.checkAuth 500 500 (some onSuccess) onFailed]

/-- A code exchange answered at second 2000 with a token that expired at second 1000. -/
def expiredExchangeWorld : World :=
  run demoEnv freshWorld [.exchangeCodeForTokens "code" (some onSuccess) onFailed,
    .respond 0 (ok200 (.str "alice.admin.1000") (.str "r1")) 2000]

/-- The session of `freshWorld` after `handleSuccessfulAuth` received a token whose only realm
role is spelled `Admin`. -/
def bobWorld : World :=
  handleSuccessfulAuth demoEnv 500 (.str "bob.Admin.1000") (.str "r1") (some onSuccess)
    freshWorld

/-- An administrator's session whose refresh timer fires and whose refresh is answered with a
token that carries no `realm_access.roles`. -/
def staleRolesWorld : World :=
  run demoEnv aliceWorld [.checkAuth 500 500 (some onSuccess) onFailed, .fire 0,
    .respond 0 (ok200 (.str "carol.noroles.1000") (.str "r2")) 970]

/-- Two runs of `checkAuth` over the same valid persisted pair. -/
def twoTimersWorld : World :=
  run demoEnv aliceWorld [.checkAuth 500 500 (some onSuccess) onFailed,
    .checkAuth 500 500 (some onSuccess) onFailed]

/-- The callbacks invoked in a trace, in order. -/
def calls (trace : List Event) : List Callback :=
  trace.filterMap (fun e => match e with
    | .call cb _ _ => some cb
    | _ => none)

/-- A code exchange answered `200` with a body that has no `access_token`. -/
def emptyBodyExchangeWorld : World :=
  run demoEnv freshWorld [.exchangeCodeForTokens "code" (some onSuccess) onFailed,
    .respond 0 (.http 200 (some (.undefined, .undefined))) 500]

/-- A code exchange answered `200` with an access token that the decoder rejects. -/
def garbageExchangeWorld : World :=
  run demoEnv freshWorld [.exchangeCodeForTokens "code" (some onSuccess) onFailed,
    .respond 0 (ok200 (.str "garbage") (.str "r1")) 500]

/-- The refresh started by `checkAuth` for an expired pair, answered with a token that decodes
and has no `exp`. -/
def noExpRefreshWorld : World :=
  run demoEnv aliceWorld [.checkAuth 2000 2000 (some onSuccess) onFailed,
    .respond 0 (ok200 (.str "dave.noexp") (.str "r2")) 2001]

/-- The token-endpoint requests issued in a trace, in order. -/
def posts (trace : List Event) : List Grant :=
  trace.filterMap (fun e => match e with
    | .post _ g => some g
    | _ => none)

/-- The timer that lines 160-165 arm for the claims `c` when the clock reads `now`, if any. -/
def armedTimer (c : Claims) (now : Int) (r : JsVal) (cb : Option Callback) : Option Timer :=
  match c.exp with
  | some e => if e - now > 0 then some ⟨(e - now - 30) * 1000, r, cb⟩ else none
  | none => none

/-- The session that lines 138-157 have built from the tokens and the claims `c`, over the
roles `prev` held before. -/
def installed (env : Env) (a r : JsVal) (c : Claims) (prev : List String) : Session :=
  { accessToken := a, refreshToken := r, authenticated := true, username := usernameOf c,
    userRoles := match c.realm_roles with
      | some roles => mapRoles env roles
      | none => prev }

/-- An authenticated page on which a code exchange is started and answered `400`. -/
def failedExchangeWorld : World :=
  run demoEnv aliceWorld [.checkAuth 500 500 (some onSuccess) onFailed,
    .exchangeCodeForTokens "code" (some onSuccess) onFailed, .respond 0 (.http 400 none) 600]

/-- The session of `freshWorld` after `handleSuccessfulAuth`, ten seconds before the token
expires. -/
def shortLivedWorld : World :=
  handleSuccessfulAuth demoEnv 990 (.str "alice.admin.1000") (.str "r1") (some onSuccess)
    freshWorld

/-- An authenticated page that logs out, after which the timer armed before fires and its
refresh is answered with a fresh pair. -/
def resurrectedWorld : World :=
  run demoEnv aliceWorld [.checkAuth 500 500 (some onSuccess) onFailed, .logout, .fire 0,
    .respond 0 (ok200 (.str "bob.Admin.1000") (.str "r2")) 970]

/-- A success callback that throws. -/
def onSuccessThrowing : Callback := ⟨"onAuthSuccess", true⟩

/-- A decoder that knows one token, which carries neither `preferred_username` nor roles. -/
def anonDecode : String → Option Claims
  | "anon.1000" => some ⟨none, none, some 1000⟩
  | _ => none

/-- The environment of `anonDecode`. -/
def anonEnv : Env := ⟨anonDecode, asciiUpper, "http://localhost:8000/"⟩

/-- A page loaded over a `localStorage` whose `access_token` key holds the empty string. -/
def emptyAccessWorld : World := World.init ⟨some "", some "r1"⟩

end AuthService

/-! ## The keycloak-js front-end (`frontend/src/services/keycloak.js`, `api.js`) -/

namespace KeycloakService

open AuthService (Callback JsVal)

/-- The fields of the `keycloak-js` instance that the service reads; `authenticated` is
`undefined` (`none`) until the library has initialised. -/
structure Keycloak where
  authenticated : Option Bool
  token : JsVal
  deriving DecidableEq, Repr

/-- `isAuthenticated` (lines 118-120 of `keycloak.js`). -/
def isAuthenticated (kc : Keycloak) : Option Bool := kc.authenticated

/-- `getToken` (lines 95-97 of `keycloak.js`). -/
def getToken (kc : Keycloak) : JsVal := kc.token

/-- JavaScript truthiness of a value that is `undefined` or a boolean. -/
def truthy : Option Bool → Bool
  | some b => b
  | none => false

/-- An axios request configuration: its `headers` object as a list of entries with distinct
keys, and the fields the interceptor does not read. -/
structure RequestConfig where
  url : String
  method : String
  data : Option String
  timeout : Nat
  headers : List (String × String)
  deriving DecidableEq, Repr

/-- The property assignment `headers[key] = value`. -/
def setHeader (key value : String) : List (String × String) → List (String × String)
  | [] => [(key, value)]
  | (k, v) :: rest =>
    if k = key then (key, value) :: rest else (k, v) :: setHeader key value rest

/-- The property read `headers[key]`. -/
def getHeader (key : String) : List (String × String) → Option String
  | [] => none
  | (k, v) :: rest => if k = key then some v else getHeader key rest

/-- The request interceptor of `api.js` (lines 14-19). -/
def requestInterceptor (kc : Keycloak) (config : RequestConfig) : RequestConfig :=
  if truthy (isAuthenticated kc) then
    { config with
      headers := setHeader "Authorization" ("Bearer " ++ (getToken kc).toStr) config.headers }
  else config

/-- An effect performed by `keycloak.js`, in program order. -/
inductive Effect where
  | init
  | setInterval (ms : Nat)
  | updateToken (minValidity : Nat)
  | dispatchEvent (type : String)
  | login
  | call (cb : Callback)
  deriving DecidableEq, Repr

/-- The module variable `initializationPromise`: `null`, or the promise built at lines 42-62,
which while pending holds the callbacks of the first caller and those attached since. -/
inductive InitPromise where
  | null
  | pending (onAuthSuccess onAuthError : Callback) (waiters : List (Callback × Callback))
  | fulfilled
  | rejected
  deriving DecidableEq, Repr

/-- How a promise of the library settles: `keycloak.init` resolves with `authenticated` and
`keycloak.updateToken` with `refreshed`. -/
inductive Outcome where
  | resolved (value : Bool)
  | rejected
  deriving DecidableEq, Repr

/-- The module state of `keycloak.js`, the interval timers it has installed and its
effects. -/
structure State where
  keycloak : Keycloak
  initialized : Bool
  initializationPromise : InitPromise
  intervals : Nat
  trace : List Effect
  deriving DecidableEq, Repr

/-- The module as loaded (lines 11-15). -/
def State.initial : State :=
  { keycloak := ⟨none, .undefined⟩, initialized := false, initializationPromise := .null,
    intervals := 0, trace := [] }

/-- `initTokenRefresh` (lines 66-82): installs the interval timer. -/
def initTokenRefresh (s : State) : State :=
  { s with intervals := s.intervals + 1, trace := s.trace ++ [.setInterval 60000] }

/-- One run of the interval callback (lines 67-80) with the settlement of `updateToken`. -/
def tick (outcome : Outcome) (s : State) : State :=
  let s1 := { s with trace := s.trace ++ [.updateToken 70] }
  match outcome with
  | .resolved refreshed =>
    if refreshed then
      { s1 with trace := s1.trace ++ [.dispatchEvent "keycloak-token-refresh"] }
    else s1
  | .rejected => { s1 with trace := s1.trace ++ [.login] }

/-- The handlers `.then(() => onAuthSuccess(keycloak)).catch(onAuthError)` of lines 29-35 once
`initializationPromise` is fulfilled. -/
def waiterFulfilled (wt : Callback × Callback) : List Effect :=
  if wt.1.throws then [.call wt.1, .call wt.2] else [.call wt.1]

/-- The same handlers once `initializationPromise` is rejected. -/
def waiterRejected (wt : Callback × Callback) : List Effect :=
  [.call wt.2]

/-- `initKeycloak` (lines 18-63) up to its return. -/
def initKeycloak (onAuthSuccess onAuthError : Callback) (s : State) : State :=
  if s.initialized then { s with trace := s.trace ++ [.call onAuthSuccess] }
  else match s.initializationPromise with
    | .null =>
      { s with initializationPromise := .pending onAuthSuccess onAuthError []
               trace := s.trace ++ [.init] }
    | .pending f g waiters =>
      { s with
        initializationPromise := .pending f g (waiters ++ [(onAuthSuccess, onAuthError)]) }
    | .fulfilled =>
      { s with trace := s.trace ++ waiterFulfilled (onAuthSuccess, onAuthError) }
    | .rejected =>
      { s with trace := s.trace ++ waiterRejected (onAuthSuccess, onAuthError) }

/-- The settlement of `keycloak.init`: the handlers of lines 47-62 run, then those attached
to `initializationPromise` meanwhile.  The library sets its own fields `authenticated` and
`token`. -/
def settle (outcome : Outcome) (token : JsVal) (s : State) : State :=
  match s.initializationPromise with
  | .pending f g waiters =>
    match outcome with
    | .resolved authenticated =>
      let s1 := { s with
        initialized := true
        keycloak := ⟨some authenticated, if authenticated then token else .undefined⟩ }
      let s2 := if authenticated then initTokenRefresh s1 else s1
      let s3 := { s2 with trace := s2.trace ++ [Effect.call f] }
      if f.throws then
        { s3 with
          initializationPromise := .rejected
          trace := s3.trace ++ [Effect.call g] ++ waiters.flatMap waiterRejected }
      else
        { s3 with
          initializationPromise := .fulfilled
          trace := s3.trace ++ waiters.flatMap waiterFulfilled }
    | .rejected =>
      { s with
        initializationPromise := .rejected
        trace := s.trace ++ [Effect.call g] ++ waiters.flatMap waiterRejected }
  | _ => s

/-- What can happen to the module. -/
inductive Op where
  | initKeycloak (onAuthSuccess onAuthError : Callback)
  | settle (outcome : Outcome) (token : JsVal)
  | tick (outcome : Outcome)
  deriving DecidableEq, Repr

/-- One operation; an interval callback runs only when an interval timer is installed. -/
def step (s : State) : Op → State
  | .initKeycloak f g => initKeycloak f g s
  | .settle outcome token => settle outcome token s
  | .tick outcome => if s.intervals > 0 then tick outcome s else s

/-- A sequence of operations, left to right. -/
def run (s : State) (ops : List Op) : State :=
  ops.foldl step s

/-- The number of `keycloak.init` calls in a trace. -/
def inits (trace : List Effect) : Nat := trace.count .init

/-- The number of interval timers installed in a trace. -/
def installs (trace : List Effect) : Nat := trace.count (.setInterval 60000)

/-- The invariant behind the single initialisation: `keycloak.init` has been called iff
`initializationPromise` is set, and the interval timer is installed only once that promise
has settled. -/
def Inv (s : State) : Prop :=
  match s.initializationPromise with
  | .null =>
    s.initialized = false ∧ inits s.trace = 0 ∧ installs s.trace = 0 ∧ s.intervals = 0
  | .pending _ _ _ =>
    s.initialized = false ∧ inits s.trace = 1 ∧ installs s.trace = 0 ∧ s.intervals = 0
  | _ => inits s.trace = 1 ∧ installs s.trace ≤ 1 ∧ s.intervals = installs s.trace

/-- A request configuration with a content type and no authorization. -/
def demoConfig : RequestConfig :=
  { url := "/products/1", method := "get", data := none, timeout := 10000,
    headers := [("Content-Type", "application/json")] }

/-- Two calls of `initKeycloak` while the first initialisation is pending, its success, a
third call, and two ticks of the refresh timer. -/
def demoOps : List Op :=
  [.initKeycloak AuthService.onSuccess AuthService.onFailed,
   .initKeycloak AuthService.onSuccess AuthService.onFailed,
   .settle (.resolved true) (.str "tok"),
   .initKeycloak AuthService.onSuccess AuthService.onFailed,
   .tick (.resolved true), .tick .rejected]

end KeycloakService

namespace AuthService

/-! ## Lemmas on the methods -/

theorem invoke_session (cb : Callback) (w : World) : (invoke cb w).session = w.session := rfl

theorem invoke_requests (cb : Callback) (w : World) : (invoke cb w).requests = w.requests := rfl

theorem clearTokens_session (w : World) : (clearTokens w).session = Session.empty := rfl

theorem clearTokens_requests (w : World) : (clearTokens w).requests = w.requests := rfl

/-- The session left by the `try` block: cleared when the callback throws, otherwise the
incoming session with `username` and, when the token carries roles, `userRoles` replaced. -/
theorem afterDecode_session (env : Env) (now : Int) (r : JsVal) (cb : Option Callback)
    (c : Claims) (w : World) :
    (afterDecode env now r cb c w).session =
      if cb.any (fun f => f.throws) then Session.empty
      else { w.session with
              username := usernameOf c
              userRoles := match c.realm_roles with
                | some roles => mapRoles env roles
                | none => w.session.userRoles } := by
  rcases c with ⟨u, roles, e⟩
  rcases cb with _ | ⟨n, _ | _⟩ <;> rcases roles with _ | roles <;> rcases e with _ | e <;>
    simp [afterDecode, expiresIn, invoke, clearTokens] <;> split <;> rfl

theorem afterDecode_timers (env : Env) (now : Int) (r : JsVal) (cb : Option Callback)
    (c : Claims) (w : World) :
    (afterDecode env now r cb c w).timers =
      match c.exp with
      | some e => if e - now > 0 then w.timers ++ [⟨(e - now - 30) * 1000, r, cb⟩] else w.timers
      | none => w.timers := by
  rcases c with ⟨u, roles, e⟩
  rcases cb with _ | ⟨n, _ | _⟩ <;> rcases roles with _ | roles <;> rcases e with _ | e <;>
    simp [afterDecode, expiresIn, invoke, clearTokens] <;> split <;> rfl

theorem afterDecode_requests (env : Env) (now : Int) (r : JsVal) (cb : Option Callback)
    (c : Claims) (w : World) :
    (afterDecode env now r cb c w).requests = w.requests := by
  rcases c with ⟨u, roles, e⟩
  rcases cb with _ | ⟨n, _ | _⟩ <;> rcases roles with _ | roles <;> rcases e with _ | e <;>
    simp [afterDecode, expiresIn, invoke, clearTokens] <;> split <;> rfl

theorem handleSuccessfulAuth_requests (env : Env) (now : Int) (a r : JsVal)
    (cb : Option Callback) (w : World) :
    (handleSuccessfulAuth env now a r cb w).requests = w.requests := by
  unfold handleSuccessfulAuth
  cases env.jwt_decode a <;> simp [afterDecode_requests, clearTokens, debugAuthToken]

/-- A token the decoder accepts is a non-empty string, for a decoder that rejects `''`. -/
theorem truthy_of_decoded (env : Env) (h0 : env.decode "" = none) (a : JsVal) (c : Claims)
    (h : env.jwt_decode a = some c) : a.truthy = true := by
  cases a with
  | undefined => simp [Env.jwt_decode] at h
  | str s =>
    by_cases hs : s = ""
    · subst hs; simp [Env.jwt_decode, h0] at h
    · simp [JsVal.truthy, hs]

/-- After `handleSuccessfulAuth` the flag and the token agree. -/
theorem handleSuccessfulAuth_consistent (env : Env) (h0 : env.decode "" = none) (now : Int)
    (a r : JsVal) (cb : Option Callback) (w : World) :
    (handleSuccessfulAuth env now a r cb w).session.authenticated =
      (handleSuccessfulAuth env now a r cb w).session.accessToken.truthy := by
  unfold handleSuccessfulAuth
  cases h : env.jwt_decode a with
  | none => simp [clearTokens, Session.empty, JsVal.truthy]
  | some c =>
    simp only [afterDecode_session, debugAuthToken]
    split
    · simp [Session.empty, JsVal.truthy]
    · simp [truthy_of_decoded env h0 a c h]

/-! ## The invariant of reachable states -/

theorem refreshPending_eq (w : World) : refreshPending w = w.requests.any Pending.isRefresh := rfl

theorem Inv_of_consistent (w : World)
    (h : w.session.authenticated = w.session.accessToken.truthy) : Inv w := by
  constructor
  · intro ha; rw [← h]; exact ha
  · intro _ ht; rw [h]; exact ht

theorem Inv_of_session_eq (w w2 : World) (hs : w2.session = w.session)
    (hr : refreshPending w2 = false → refreshPending w = false) (h : Inv w) : Inv w2 := by
  refine ⟨?_, ?_⟩
  · rw [hs]; exact h.1
  · intro hp; rw [hs]; exact h.2 (hr hp)

/-- Dropping a request that is not a refresh keeps the refresh requests. -/
theorem any_eraseIdx_of_not (f : Pending → Bool) :
    ∀ (l : List Pending) (i : Nat) (p : Pending), l.get? i = some p → f p = false →
      (l.eraseIdx i).any f = l.any f
  | [], _, _, h, _ => by simp at h
  | x :: l, 0, p, h, hf => by
    simp at h; subst h; simp [hf]
  | x :: l, i + 1, p, h, hf => by
    simp at h
    simp [any_eraseIdx_of_not f l i p (by simpa using h) hf]

theorem Inv_clearTokens (w : World) : Inv (clearTokens w) :=
  Inv_of_consistent _ (by simp [clearTokens, Session.empty, JsVal.truthy])

theorem Inv_handleSuccessfulAuth (env : Env) (h0 : env.decode "" = none) (now : Int)
    (a r : JsVal) (cb : Option Callback) (w : World) :
    Inv (handleSuccessfulAuth env now a r cb w) :=
  Inv_of_consistent _ (handleSuccessfulAuth_consistent env h0 now a r cb w)

theorem Inv_invoke (cb : Callback) (w : World) (h : Inv w) : Inv (invoke cb w) :=
  Inv_of_session_eq w _ rfl (fun hp => hp) h

theorem Inv_refreshAccessToken (r : JsVal) (s : Option Callback) (f : Callback) (w : World)
    (h : Inv w) : Inv (refreshAccessToken r s f w) := by
  refine Inv_of_session_eq w _ rfl ?_ h
  intro hp
  simp [refreshPending, refreshAccessToken, Pending.isRefresh] at hp

theorem Inv_exchangeCodeForTokens (env : Env) (code : String) (s : Option Callback)
    (f : Callback) (w : World) (h : Inv w) : Inv (exchangeCodeForTokens env code s f w) := by
  refine Inv_of_session_eq w _ rfl ?_ h
  intro hp
  simp only [refreshPending, exchangeCodeForTokens, List.any_append, Bool.or_eq_false_iff] at hp
  exact hp.1

theorem Inv_refreshAccessToken_resume (env : Env) (h0 : env.decode "" = none) (now : Int)
    (resp : Response) (s : Option Callback) (f : Callback) (w : World) :
    Inv (refreshAccessToken_resume env now resp s f w) := by
  unfold refreshAccessToken_resume
  split
  · exact Inv_invoke _ _ (Inv_clearTokens w)
  · split
    · exact Inv_handleSuccessfulAuth env h0 _ _ _ _ _
    · exact Inv_invoke _ _ (Inv_clearTokens w)

theorem Inv_exchangeCodeForTokens_resume (env : Env) (h0 : env.decode "" = none) (now : Int)
    (resp : Response) (s : Option Callback) (f : Callback) (w : World) (h : Inv w) :
    Inv (exchangeCodeForTokens_resume env now resp s f w) := by
  unfold exchangeCodeForTokens_resume
  split
  · exact Inv_invoke _ _ h
  · split
    · exact Inv_handleSuccessfulAuth env h0 _ _ _ _ _
    · exact Inv_invoke _ _ h

theorem Inv_checkAuth (env : Env) (h0 : env.decode "" = none) (now now2 : Int)
    (s : Option Callback) (f : Callback) (w : World) (h : Inv w) :
    Inv (checkAuth env now now2 s f w) := by
  unfold checkAuth
  split
  · rename_i storedToken storedRefresh _ _
    split
    · rename_i hne
      split
      · split
        · exact Inv_handleSuccessfulAuth env h0 _ _ _ _ _
        · refine ⟨?_, ?_⟩
          · intro _
            simp only [Bool.and_eq_true] at hne
            simpa [refreshAccessToken, JsVal.truthy] using hne.1
          · intro hp
            simp [refreshPending, refreshAccessToken, Pending.isRefresh] at hp
      · exact Inv_invoke _ _ (Inv_clearTokens _)
    · exact Inv_invoke _ _ h
  · exact Inv_invoke _ _ h

theorem Inv_step (env : Env) (h0 : env.decode "" = none) (w : World) (op : Op) (h : Inv w) :
    Inv (step env w op) := by
  cases op with
  | login => exact Inv_of_session_eq w _ rfl (fun hp => hp) h
  | logout => exact Inv_of_session_eq (clearTokens w) _ rfl (fun hp => hp) (Inv_clearTokens w)
  | checkAuth now now2 s f => exact Inv_checkAuth env h0 now now2 s f w h
  | exchangeCodeForTokens code s f => exact Inv_exchangeCodeForTokens env code s f w h
  | refreshAccessToken r s f => exact Inv_refreshAccessToken r s f w h
  | respond i resp now =>
    simp only [step]
    cases hp : w.requests.get? i with
    | none => exact h
    | some p =>
      simp only [resume]
      cases hg : p.grant with
      | refresh_token v => exact Inv_refreshAccessToken_resume env h0 _ _ _ _ _
      | authorization_code code uri =>
        refine Inv_exchangeCodeForTokens_resume env h0 _ _ _ _ _ ?_
        refine Inv_of_session_eq w _ rfl ?_ h
        intro hq
        have hf : Pending.isRefresh p = false := by simp [Pending.isRefresh, hg]
        have := any_eraseIdx_of_not Pending.isRefresh w.requests i p hp hf
        rw [refreshPending_eq] at hq ⊢
        simpa [this] using hq
  | fire i =>
    simp only [step]
    cases ht : w.timers.get? i with
    | none => exact h
    | some t =>
      refine Inv_refreshAccessToken _ _ _ _ ?_
      exact Inv_of_session_eq w _ rfl (fun hp => hp) h

theorem Inv_run (env : Env) (h0 : env.decode "" = none) (ops : List Op) :
    ∀ w, Inv w → Inv (run env w ops) := by
  induction ops with
  | nil => intro w h; exact h
  | cons op ops ih => intro w h; exact ih _ (Inv_step env h0 w op h)

theorem Inv_init (storage : Storage) : Inv (World.init storage) :=
  Inv_of_consistent _ (by simp [World.init, Session.empty, JsVal.truthy])

theorem Inv_of_reachable (env : Env) (h0 : env.decode "" = none) (w : World)
    (h : Reachable env w) : Inv w := by
  obtain ⟨storage, ops, rfl⟩ := h
  exact Inv_run env h0 ops _ (Inv_init storage)

/-- The session left by `handleSuccessfulAuth`. -/
theorem handleSuccessfulAuth_session (env : Env) (now : Int) (a r : JsVal)
    (cb : Option Callback) (w : World) :
    (handleSuccessfulAuth env now a r cb w).session =
      match env.jwt_decode a with
      | none => Session.empty
      | some c =>
        if cb.any (fun f => f.throws) then Session.empty
        else { accessToken := a, refreshToken := r, authenticated := true,
               username := usernameOf c,
               userRoles := match c.realm_roles with
                 | some roles => mapRoles env roles
                 | none => w.session.userRoles } := by
  unfold handleSuccessfulAuth
  cases env.jwt_decode a with
  | none => rfl
  | some c => simp only [afterDecode_session, debugAuthToken]

theorem getAuthHeader_eq_nil (s : Session) :
    getAuthHeader s = [] ↔ s.accessToken.truthy = false := by
  unfold getAuthHeader
  cases s.accessToken.truthy <;> simp

/-- C1 (as stated, refuted): after `checkAuth` has found a persisted pair whose access token
is expired, and while the refresh it started is in flight, `getAuthHeader()` returns a bearer
header although `authenticated` is false. -/
theorem C1_counterexample :
    Reachable demoEnv pendingRefreshWorld ∧
    refreshPending pendingRefreshWorld = true ∧
    pendingRefreshWorld.session.authenticated = false ∧
    getAuthHeader pendingRefreshWorld.session = [("Authorization", "Bearer alice.admin.1000")] ∧
    ¬ (getAuthHeader pendingRefreshWorld.session = [] ↔
        pendingRefreshWorld.session.authenticated = false) :=
  ⟨⟨_, _, rfl⟩, by decide, by decide, by decide, by decide⟩

/-- C1 (amended): `getAuthHeader()` returns the empty header set iff `accessToken` is empty.
In every reachable state (decoder rejecting `''`) an authenticated session gets a non-empty
header set, and whenever no refresh request is in flight the header set is empty iff
`authenticated` is false. -/
theorem C1_getAuthHeader_empty_iff (env : Env) (h0 : env.decode "" = none) (w : World)
    (h : Reachable env w) :
    (getAuthHeader w.session = [] ↔ w.session.accessToken.truthy = false) ∧
    (w.session.authenticated = true → getAuthHeader w.session ≠ []) ∧
    (refreshPending w = false →
      (getAuthHeader w.session = [] ↔ w.session.authenticated = false)) := by
  have hI := Inv_of_reachable env h0 w h
  refine ⟨getAuthHeader_eq_nil _, ?_, ?_⟩
  · intro ha hn
    have := hI.1 ha
    rw [getAuthHeader_eq_nil] at hn
    simp [hn] at this
  · intro hp
    rw [getAuthHeader_eq_nil]
    constructor
    · intro ht
      cases ha : w.session.authenticated with
      | false => rfl
      | true => have := hI.1 ha; simp [ht] at this
    · intro ha
      cases ht : w.session.accessToken.truthy with
      | false => rfl
      | true => have := hI.2 hp ht; simp [ha] at this

/-- C1, at a concrete state: the session that `checkAuth` authenticated from a valid persisted pair. -/
theorem C1_getAuthHeader_empty_iff_witness :
    demoEnv.decode "" = none ∧ Reachable demoEnv authedWorld ∧
    authedWorld.session.authenticated = true ∧ refreshPending authedWorld = false ∧
    getAuthHeader authedWorld.session ≠ [] ∧
    (getAuthHeader authedWorld.session = [] ↔ authedWorld.session.authenticated = false) :=
  have h := C1_getAuthHeader_empty_iff demoEnv (by decide) authedWorld ⟨_, _, rfl⟩
  ⟨by decide, ⟨_, _, rfl⟩, by decide, by decide, h.2.1 (by decide), h.2.2 (by decide)⟩

/-- C2 (as stated, refuted): a code exchange answered at second 2000 with an access token
whose `exp` is 1000 leaves the session authenticated. -/
theorem C2_counterexample :
    demoEnv.jwt_decode (.str "alice.admin.1000") =
      some { preferred_username := some "alice", realm_roles := some ["admin"],
             exp := some 1000 } ∧
    ¬ ((1000 : Int) > 2000) ∧
    expiredExchangeWorld.session.authenticated = true ∧
    expiredExchangeWorld.session.accessToken = .str "alice.admin.1000" ∧
    expiredExchangeWorld.timers = [] := by
  decide

/-- C2 (amended): `handleSuccessfulAuth` finishes with `authenticated = true` exactly when the
decoder accepts the access token and the callback returns normally, whatever `exp` is.  Only
`checkAuth` compares `exp` with the clock: it turns an unauthenticated session into an
authenticated one only for a persisted token whose `exp` is greater than the time it read. -/
theorem C2_authenticated_iff_decoded (env : Env) (now now2 : Int) (a r : JsVal)
    (cb s : Option Callback) (f : Callback) (w : World) :
    ((handleSuccessfulAuth env now a r cb w).session.authenticated = true ↔
      (∃ c, env.jwt_decode a = some c) ∧ cb.any (fun g => g.throws) = false) ∧
    (w.session.authenticated = false →
      (checkAuth env now now2 s f w).session.authenticated = true →
      ∃ t c e, w.storage.access_token = some t ∧ env.decode t = some c ∧ c.exp = some e ∧
        e > now ∧ (checkAuth env now now2 s f w).session.accessToken = .str t) := by
  constructor
  · rw [handleSuccessfulAuth_session]
    cases env.jwt_decode a with
    | none => simp [Session.empty]
    | some c => cases cb.any (fun g => g.throws) <;> simp [Session.empty]
  · intro hw
    unfold checkAuth
    split
    · rename_i t rt ht hrt
      split
      · split
        · rename_i c hc
          split
          · rename_i he
            intro ha
            rw [handleSuccessfulAuth_session] at ha ⊢
            rw [hc] at ha ⊢
            cases hcb : s.any (fun g => g.throws) with
            | true => simp [hcb, Session.empty] at ha
            | false =>
              cases hexp : c.exp with
              | none => simp [hexp] at he
              | some e =>
                refine ⟨t, c, e, ht, hc, hexp, ?_, ?_⟩
                · simpa [hexp] using he
                · simp
          · intro ha; simp [refreshAccessToken, hw] at ha
        · intro ha; simp [invoke, clearTokens, Session.empty] at ha
      · intro ha; simp [invoke, hw] at ha
    · intro ha; simp [invoke, hw] at ha

/-- C2, at concrete inputs: `handleSuccessfulAuth` and `checkAuth` at second 500 for a token that
expires at second 1000. -/
theorem C2_authenticated_iff_decoded_witness :
    (handleSuccessfulAuth demoEnv 500 (.str "alice.admin.1000") (.str "r1") (some onSuccess)
      aliceWorld).session.authenticated = true ∧
    aliceWorld.session.authenticated = false ∧
    (checkAuth demoEnv 500 501 (some onSuccess) onFailed aliceWorld).session.authenticated
      = true ∧
    ∃ t c e, aliceWorld.storage.access_token = some t ∧ demoEnv.decode t = some c ∧
      c.exp = some e ∧ e > 500 ∧
      (checkAuth demoEnv 500 501 (some onSuccess) onFailed aliceWorld).session.accessToken
        = .str t :=
  have h := C2_authenticated_iff_decoded demoEnv 500 501 (.str "alice.admin.1000") (.str "r1")
    (some onSuccess) (some onSuccess) onFailed aliceWorld
  ⟨h.1.mpr ⟨⟨⟨some "alice", some ["admin"], some 1000⟩, by decide⟩, by decide⟩, by decide,
    by decide, h.2 (by decide) (by decide)⟩

/-- C3: in every state reached from a freshly loaded page by the operations of `AuthService`
and the completions of its requests and timers, `authenticated = true` implies that
`accessToken` is a non-empty string, for a decoder that rejects the empty string. -/
theorem C3_authenticated_implies_token (env : Env) (h0 : env.decode "" = none) (w : World)
    (h : Reachable env w) (ha : w.session.authenticated = true) :
    ∃ s, w.session.accessToken = .str s ∧ s ≠ "" := by
  have ht := (Inv_of_reachable env h0 w h).1 ha
  cases hs : w.session.accessToken with
  | undefined => simp [hs, JsVal.truthy] at ht
  | str s =>
    refine ⟨s, rfl, ?_⟩
    intro he
    simp [hs, JsVal.truthy, he] at ht

/-- C3, at a concrete state: the session that `checkAuth` authenticated from a valid persisted pair. -/
theorem C3_authenticated_implies_token_witness :
    demoEnv.decode "" = none ∧ Reachable demoEnv authedWorld ∧
    authedWorld.session.authenticated = true ∧
    ∃ s, authedWorld.session.accessToken = .str s ∧ s ≠ "" :=
  ⟨by decide, ⟨_, _, rfl⟩, by decide,
    C3_authenticated_implies_token demoEnv (by decide) authedWorld ⟨_, _, rfl⟩ (by decide)⟩

/-- The timers pending after `handleSuccessfulAuth`. -/
theorem handleSuccessfulAuth_timers (env : Env) (now : Int) (a r : JsVal)
    (cb : Option Callback) (w : World) :
    (handleSuccessfulAuth env now a r cb w).timers =
      match env.jwt_decode a with
      | none => w.timers
      | some c =>
        match c.exp with
        | some e =>
          if e - now > 0 then w.timers ++ [⟨(e - now - 30) * 1000, r, cb⟩] else w.timers
        | none => w.timers := by
  unfold handleSuccessfulAuth
  cases env.jwt_decode a with
  | none => rfl
  | some c => exact afterDecode_timers env now r cb c _

theorem role_eq_admin_iff (x : String) : "ROLE_" ++ x = "ROLE_ADMIN" ↔ x = "ADMIN" := by
  have h : ("ROLE_ADMIN" : String) = "ROLE_" ++ "ADMIN" := by decide
  rw [h]
  constructor
  · intro he
    have hd := congrArg String.data he
    simp only [String.data_append] at hd
    exact String.ext (List.append_cancel_left hd)
  · intro he; rw [he]

theorem contains_mapRoles (env : Env) (roles : List String) :
    (mapRoles env roles).contains "ROLE_ADMIN" = true ↔
      ∃ role ∈ roles, env.toUpperCase role = "ADMIN" := by
  simp [mapRoles, role_eq_admin_iff]

/-- C4 (as stated, refuted): for a token whose `realm_access.roles` is `["Admin"]`, which
does not contain the string `admin`, `isAdmin()` returns true. -/
theorem C4_counterexample :
    demoEnv.jwt_decode (.str "bob.Admin.1000") =
      some { preferred_username := some "bob", realm_roles := some ["Admin"],
             exp := some 1000 } ∧
    "admin" ∉ ["Admin"] ∧
    bobWorld.session.authenticated = true ∧
    bobWorld.session.userRoles = ["ROLE_ADMIN"] ∧
    isAdmin bobWorld.session = true := by
  decide

/-- C4 (amended): after a successful `handleSuccessfulAuth` for a token that carries
`realm_access.roles`, `isAdmin()` returns true iff some role of that token upper-cases to
`ADMIN`, whatever the session held before. -/
theorem C4_isAdmin_iff_uppercased (env : Env) (now : Int) (a r : JsVal) (cb : Option Callback)
    (w : World) (c : Claims) (roles : List String) (hc : env.jwt_decode a = some c)
    (hr : c.realm_roles = some roles) (hcb : cb.any (fun g => g.throws) = false) :
    isAdmin (handleSuccessfulAuth env now a r cb w).session = true ↔
      ∃ role ∈ roles, env.toUpperCase role = "ADMIN" := by
  rw [handleSuccessfulAuth_session, hc]
  simp only [hcb, hr, isAdmin]
  exact contains_mapRoles env roles

/-- C4, at a concrete input: a token whose only realm role is `admin`. -/
theorem C4_isAdmin_iff_uppercased_witness :
    isAdmin (handleSuccessfulAuth demoEnv 500 (.str "alice.admin.1000") (.str "r1")
      (some onSuccess) freshWorld).session = true ↔
      ∃ role ∈ ["admin"], demoEnv.toUpperCase role = "ADMIN" :=
  C4_isAdmin_iff_uppercased demoEnv 500 (.str "alice.admin.1000") (.str "r1") (some onSuccess)
    freshWorld ⟨some "alice", some ["admin"], some 1000⟩ ["admin"] (by decide) (by decide)
    (by decide)

/-- C5 (the code at the failing input): an administrator's session is refreshed with a token
that decodes and carries no `realm_access.roles`; the new token is installed, `username`
follows it, and `userRoles` keeps the roles of the previous token. -/
theorem C5_roles_kept_without_realm_access :
    demoEnv.jwt_decode (.str "carol.noroles.1000") =
      some { preferred_username := some "carol", realm_roles := none, exp := some 1000 } ∧
    staleRolesWorld.session.authenticated = true ∧
    staleRolesWorld.session.accessToken = .str "carol.noroles.1000" ∧
    staleRolesWorld.session.username = "carol" ∧
    staleRolesWorld.session.userRoles = ["ROLE_ADMIN"] ∧
    staleRolesWorld.session.userRoles ≠ [] ∧
    isAdmin staleRolesWorld.session = true := by
  decide

/-- C6 (as stated, refuted): `checkAuth` run twice over a valid persisted pair arms a second
timer while the first is pending; both stay pending, and when both fire two refresh requests
are posted. -/
theorem C6_counterexample :
    authedWorld.timers.length = 1 ∧
    twoTimersWorld.timers.length = 2 ∧
    (run demoEnv twoTimersWorld [.fire 0, .fire 0]).timers = [] ∧
    (run demoEnv twoTimersWorld [.fire 0, .fire 0]).requests.length = 2 ∧
    (run demoEnv twoTimersWorld [.fire 0, .fire 0]).requests.all Pending.isRefresh = true := by
  decide

/-- C6 (amended): `handleSuccessfulAuth` never cancels a timer.  When it arms one (the token
decodes with `exp - now > 0`) every timer pending before the call is still pending afterwards
and the new one is added after them, so the number of pending timers grows by one. -/
theorem C6_timers_accumulate (env : Env) (now : Int) (a r : JsVal) (cb : Option Callback)
    (w : World) (c : Claims) (e : Int) (hc : env.jwt_decode a = some c) (he : c.exp = some e)
    (hpos : e - now > 0) :
    (handleSuccessfulAuth env now a r cb w).timers =
      w.timers ++ [⟨(e - now - 30) * 1000, r, cb⟩] ∧
    (handleSuccessfulAuth env now a r cb w).timers.length = w.timers.length + 1 := by
  have h : (handleSuccessfulAuth env now a r cb w).timers =
      w.timers ++ [⟨(e - now - 30) * 1000, r, cb⟩] := by
    rw [handleSuccessfulAuth_timers, hc]
    simp only [he, hpos, if_true]
  exact ⟨h, by rw [h]; simp⟩

/-- C6, at a concrete input: a second arming, at second 500, for a token that expires at second 1000. -/
theorem C6_timers_accumulate_witness :
    (handleSuccessfulAuth demoEnv 500 (.str "alice.admin.1000") (.str "r1") (some onSuccess)
      authedWorld).timers =
      authedWorld.timers ++ [⟨(1000 - 500 - 30) * 1000, .str "r1", some onSuccess⟩] ∧
    (handleSuccessfulAuth demoEnv 500 (.str "alice.admin.1000") (.str "r1") (some onSuccess)
      authedWorld).timers.length = authedWorld.timers.length + 1 :=
  C6_timers_accumulate demoEnv 500 (.str "alice.admin.1000") (.str "r1") (some onSuccess)
    authedWorld ⟨some "alice", some ["admin"], some 1000⟩ 1000 (by decide) (by decide)
    (by decide)

/-- C7 (the code at the failing input): a code exchange answered `200` with a body without
`access_token`, or with an access token that the decoder rejects, ends with the session cleared
and with no callback invoked at all: `onAuthFailed` does not run.  The same undecodable token
found by `checkAuth` in storage does make `onAuthFailed` run. -/
theorem C7_malformed_body_invokes_no_callback :
    demoEnv.jwt_decode (.str "garbage") = none ∧
    emptyBodyExchangeWorld.trace =
      [.post TOKEN_URL (.authorization_code "code" "http://localhost:8000/"),
       .setItem "access_token" "undefined", .setItem "refresh_token" "undefined",
       .removeItem "access_token", .removeItem "refresh_token"] ∧
    calls emptyBodyExchangeWorld.trace = [] ∧
    emptyBodyExchangeWorld.requests = [] ∧
    garbageExchangeWorld.trace =
      [.post TOKEN_URL (.authorization_code "code" "http://localhost:8000/"),
       .setItem "access_token" "garbage", .setItem "refresh_token" "r1",
       .removeItem "access_token", .removeItem "refresh_token"] ∧
    calls garbageExchangeWorld.trace = [] ∧
    garbageExchangeWorld.session.authenticated = false ∧
    calls (checkAuth demoEnv 500 500 (some onSuccess) onFailed
      (World.init ⟨some "garbage", some "r1"⟩)).trace = [onFailed] := by
  decide

/-- C8 (as stated, refuted): a refresh answered with a token that decodes and has no `exp`
leaves the session authenticated, the token stored and persisted, and no timer armed. -/
theorem C8_counterexample :
    demoEnv.jwt_decode (.str "dave.noexp") =
      some { preferred_username := some "dave", realm_roles := some ["user"], exp := none } ∧
    noExpRefreshWorld.session.authenticated = true ∧
    noExpRefreshWorld.session.accessToken = .str "dave.noexp" ∧
    noExpRefreshWorld.session.refreshToken = .str "r2" ∧
    noExpRefreshWorld.storage = ⟨some "dave.noexp", some "r2"⟩ ∧
    noExpRefreshWorld.timers = [] ∧
    calls noExpRefreshWorld.trace = [onSuccess] := by
  decide

/-- C8 (amended): when a refresh is answered `2xx` with an access token that decodes and has no
`exp` claim, and the success callback returns normally, `refreshAccessToken` keeps the session:
`authenticated = true`, both tokens of the response stored and persisted, no timer armed, and
the success callback (if any) the only callback invoked. -/
theorem C8_token_without_exp_is_kept (env : Env) (now : Int) (status : Nat) (a r : JsVal)
    (s : Option Callback) (f : Callback) (w : World) (c : Claims)
    (hst : (Response.http status (some (a, r))).rejected = false)
    (hc : env.jwt_decode a = some c) (he : c.exp = none)
    (hs : s.any (fun g => g.throws) = false) :
    (refreshAccessToken_resume env now (.http status (some (a, r))) s f w).session.authenticated
      = true ∧
    (refreshAccessToken_resume env now (.http status (some (a, r))) s f w).session.accessToken
      = a ∧
    (refreshAccessToken_resume env now (.http status (some (a, r))) s f w).session.refreshToken
      = r ∧
    (refreshAccessToken_resume env now (.http status (some (a, r))) s f w).storage
      = ⟨some a.toStr, some r.toStr⟩ ∧
    (refreshAccessToken_resume env now (.http status (some (a, r))) s f w).timers = w.timers ∧
    calls (refreshAccessToken_resume env now (.http status (some (a, r))) s f w).trace
      = calls w.trace ++ s.toList := by
  have hres : refreshAccessToken_resume env now (.http status (some (a, r))) s f w =
      handleSuccessfulAuth env now a r s w := by
    simp [refreshAccessToken_resume, hst]
  rw [hres]
  rcases c with ⟨u, roles, e⟩
  simp only at he
  subst he
  rcases s with _ | ⟨n, t⟩
  · rcases roles with _ | roles <;>
      simp [handleSuccessfulAuth, hc, afterDecode, expiresIn, debugAuthToken, calls]
  · simp only [Option.any_some] at hs
    subst hs
    rcases roles with _ | roles <;>
      simp [handleSuccessfulAuth, hc, afterDecode, expiresIn, debugAuthToken, calls, invoke]

/-- C8, at a concrete input: the pending refresh of `pendingRefreshWorld` answered with `dave.noexp`. -/
theorem C8_token_without_exp_is_kept_witness :
    (refreshAccessToken_resume demoEnv 2001 (.http 200 (some (.str "dave.noexp", .str "r2")))
      (some onSuccess) onFailed pendingRefreshWorld).session.authenticated = true ∧
    (refreshAccessToken_resume demoEnv 2001 (.http 200 (some (.str "dave.noexp", .str "r2")))
      (some onSuccess) onFailed pendingRefreshWorld).timers = pendingRefreshWorld.timers :=
  have h := C8_token_without_exp_is_kept demoEnv 2001 200 (.str "dave.noexp") (.str "r2")
    (some onSuccess) onFailed pendingRefreshWorld ⟨some "dave", some ["user"], none⟩
    (by decide) (by decide) (by decide) (by decide)
  ⟨h.1, h.2.2.2.2.1⟩

/-- C9: for every access token the decoder rejects (`undefined` included) and every prior
state, `handleSuccessfulAuth` ends in the cleared session with both persisted keys removed;
its effects are the two `setItem` and the two `removeItem` calls, so no callback is invoked and
no timer is armed. -/
theorem C9_undecodable_token_clears (env : Env) (now : Int) (a r : JsVal)
    (cb : Option Callback) (w : World) (h : env.jwt_decode a = none) :
    (handleSuccessfulAuth env now a r cb w).session =
      { accessToken := .str "", refreshToken := .str "", authenticated := false,
        username := "", userRoles := [] } ∧
    (handleSuccessfulAuth env now a r cb w).storage =
      { access_token := none, refresh_token := none } ∧
    (handleSuccessfulAuth env now a r cb w).timers = w.timers ∧
    (handleSuccessfulAuth env now a r cb w).requests = w.requests ∧
    (handleSuccessfulAuth env now a r cb w).trace =
      w.trace ++ [.setItem "access_token" a.toStr, .setItem "refresh_token" r.toStr,
                  .removeItem "access_token", .removeItem "refresh_token"] ∧
    calls (handleSuccessfulAuth env now a r cb w).trace = calls w.trace := by
  simp [handleSuccessfulAuth, h, clearTokens, debugAuthToken, Session.empty, calls]

/-- C9, at a concrete input: an authenticated session receives the token `garbage`. -/
theorem C9_undecodable_token_clears_witness :
    demoEnv.jwt_decode (.str "garbage") = none ∧
    (handleSuccessfulAuth demoEnv 500 (.str "garbage") (.str "r2") (some onSuccess)
      authedWorld).session =
      { accessToken := .str "", refreshToken := .str "", authenticated := false,
        username := "", userRoles := [] } ∧
    (handleSuccessfulAuth demoEnv 500 (.str "garbage") (.str "r2") (some onSuccess)
      authedWorld).timers = authedWorld.timers :=
  have h := C9_undecodable_token_clears demoEnv 500 (.str "garbage") (.str "r2")
    (some onSuccess) authedWorld (by decide)
  ⟨by decide, h.1, h.2.2.1⟩

/-- C10: when the token request of `refreshAccessToken` fails (network error or a status
outside `2xx`), then for every refresh token and whatever the state is when the failure
arrives: issuing the request touched nothing but the trace and the list of requests in flight;
the continuation removes both persisted keys and resets every session field, then invokes
`onAuthFailed`, which observes the cleared session and storage; that is the only callback
invoked, and no timer is armed. -/
theorem C10_failed_refresh_clears (env : Env) (now : Int) (resp : Response) (rt : JsVal)
    (s : Option Callback) (f : Callback) (w0 w : World) (h : resp.rejected = true) :
    ((refreshAccessToken rt s f w0).session = w0.session ∧
     (refreshAccessToken rt s f w0).storage = w0.storage ∧
     (refreshAccessToken rt s f w0).timers = w0.timers ∧
     (refreshAccessToken rt s f w0).trace = w0.trace ++ [.post TOKEN_URL (.refresh_token rt)] ∧
     (refreshAccessToken rt s f w0).requests = w0.requests ++ [⟨.refresh_token rt, s, f⟩]) ∧
    (refreshAccessToken_resume env now resp s f w).session =
      { accessToken := .str "", refreshToken := .str "", authenticated := false,
        username := "", userRoles := [] } ∧
    (refreshAccessToken_resume env now resp s f w).storage =
      { access_token := none, refresh_token := none } ∧
    (refreshAccessToken_resume env now resp s f w).timers = w.timers ∧
    (refreshAccessToken_resume env now resp s f w).trace =
      w.trace ++ [.removeItem "access_token", .removeItem "refresh_token",
        .call f { accessToken := .str "", refreshToken := .str "", authenticated := false,
                  username := "", userRoles := [] }
                { access_token := none, refresh_token := none }] ∧
    calls (refreshAccessToken_resume env now resp s f w).trace = calls w.trace ++ [f] := by
  refine ⟨⟨rfl, rfl, rfl, rfl, rfl⟩, ?_⟩
  simp [refreshAccessToken_resume, h, invoke, clearTokens, Session.empty, calls]

/-- C10, at a concrete input: the pending refresh of `pendingRefreshWorld` answered `400`. -/
theorem C10_failed_refresh_clears_witness :
    (Response.http 400 none).rejected = true ∧
    (refreshAccessToken_resume demoEnv 2001 (.http 400 none) (some onSuccess) onFailed
      pendingRefreshWorld).session.authenticated = false ∧
    (refreshAccessToken_resume demoEnv 2001 (.http 400 none) (some onSuccess) onFailed
      pendingRefreshWorld).storage = { access_token := none, refresh_token := none } ∧
    calls (refreshAccessToken_resume demoEnv 2001 (.http 400 none) (some onSuccess) onFailed
      pendingRefreshWorld).trace = calls pendingRefreshWorld.trace ++ [onFailed] :=
  have h := C10_failed_refresh_clears demoEnv 2001 (.http 400 none) (.str "r1")
    (some onSuccess) onFailed aliceWorld pendingRefreshWorld (by decide)
  ⟨by decide, by rw [h.2.1], h.2.2.1, h.2.2.2.2.2⟩

/-- The effects of `handleSuccessfulAuth`, in order. -/
theorem handleSuccessfulAuth_trace (env : Env) (now : Int) (a r : JsVal)
    (cb : Option Callback) (w : World) :
    (handleSuccessfulAuth env now a r cb w).trace =
      w.trace ++ [.setItem "access_token" a.toStr, .setItem "refresh_token" r.toStr] ++
      match env.jwt_decode a with
      | none => [.removeItem "access_token", .removeItem "refresh_token"]
      | some c =>
        (armedTimer c now r cb).toList.map Event.setTimeout ++
        match cb with
        | none => []
        | some f =>
          .call f (installed env a r c w.session.userRoles) ⟨some a.toStr, some r.toStr⟩ ::
            (if f.throws then [.removeItem "access_token", .removeItem "refresh_token"]
             else []) := by
  unfold handleSuccessfulAuth
  cases env.jwt_decode a with
  | none => simp [clearTokens, debugAuthToken]
  | some c =>
    rcases c with ⟨u, roles, e⟩
    rcases cb with _ | ⟨n, _ | _⟩ <;> rcases roles with _ | roles <;> rcases e with _ | e <;>
      simp [afterDecode, expiresIn, invoke, clearTokens, debugAuthToken, armedTimer,
        installed] <;>
      split <;> simp

/-- The persisted pair after `handleSuccessfulAuth`. -/
theorem handleSuccessfulAuth_storage (env : Env) (now : Int) (a r : JsVal)
    (cb : Option Callback) (w : World) :
    (handleSuccessfulAuth env now a r cb w).storage =
      match env.jwt_decode a with
      | none => ⟨none, none⟩
      | some _ =>
        if cb.any (fun f => f.throws) then ⟨none, none⟩
        else ⟨some a.toStr, some r.toStr⟩ := by
  unfold handleSuccessfulAuth
  cases env.jwt_decode a with
  | none => rfl
  | some c =>
    rcases c with ⟨u, roles, e⟩
    rcases cb with _ | ⟨n, _ | _⟩ <;> rcases roles with _ | roles <;> rcases e with _ | e <;>
      simp [afterDecode, expiresIn, invoke, clearTokens, debugAuthToken] <;>
      split <;> rfl

theorem calls_append (l1 l2 : List Event) : calls (l1 ++ l2) = calls l1 ++ calls l2 := by
  simp [calls]

theorem posts_append (l1 l2 : List Event) : posts (l1 ++ l2) = posts l1 ++ posts l2 := by
  simp [posts]

/-- The callbacks run by `handleSuccessfulAuth`: the one it was given, when the token
decodes. -/
theorem handleSuccessfulAuth_calls (env : Env) (now : Int) (a r : JsVal)
    (cb : Option Callback) (w : World) :
    calls (handleSuccessfulAuth env now a r cb w).trace =
      calls w.trace ++ if (env.jwt_decode a).isSome then cb.toList else [] := by
  rw [handleSuccessfulAuth_trace]
  cases env.jwt_decode a with
  | none => simp [calls]
  | some c =>
    generalize armedTimer c now r cb = t
    rcases cb with _ | ⟨n, _ | _⟩ <;> cases t <;> simp [calls]

/-- No request is issued by `handleSuccessfulAuth`. -/
theorem handleSuccessfulAuth_posts (env : Env) (now : Int) (a r : JsVal)
    (cb : Option Callback) (w : World) :
    posts (handleSuccessfulAuth env now a r cb w).trace = posts w.trace := by
  rw [handleSuccessfulAuth_trace]
  cases env.jwt_decode a with
  | none => simp [posts]
  | some c =>
    generalize armedTimer c now r cb = t
    rcases cb with _ | ⟨n, _ | _⟩ <;> cases t <;> simp [posts]

/-- C11 (as stated, refuted): on an authenticated page a code exchange answered `400` runs
`onAuthFailed` and leaves the session authenticated. -/
theorem C11_counterexample :
    (Response.http 400 none).rejected = true ∧
    authedWorld.session.authenticated = true ∧
    failedExchangeWorld.session.authenticated = true ∧
    failedExchangeWorld.session = authedWorld.session ∧
    failedExchangeWorld.storage = authedWorld.storage ∧
    calls failedExchangeWorld.trace = [onSuccess, onFailed] := by
  decide

/-- C11 (amended): when the token request of `exchangeCodeForTokens` fails (network error or a
status outside `2xx`), then for every authorization code and whatever the state is when the
failure arrives, `onAuthFailed` is the only callback invoked, no timer is armed and no request
is issued, and the session and the persisted keys are left exactly as they were: the session
is unauthenticated afterwards when it was unauthenticated before. -/
theorem C11_failed_exchange_keeps_session (env : Env) (now : Int) (resp : Response)
    (code : String) (s : Option Callback) (f : Callback) (w0 w : World)
    (h : resp.rejected = true) :
    ((exchangeCodeForTokens env code s f w0).session = w0.session ∧
     (exchangeCodeForTokens env code s f w0).storage = w0.storage ∧
     (exchangeCodeForTokens env code s f w0).timers = w0.timers ∧
     calls (exchangeCodeForTokens env code s f w0).trace = calls w0.trace) ∧
    (exchangeCodeForTokens_resume env now resp s f w).session = w.session ∧
    (exchangeCodeForTokens_resume env now resp s f w).storage = w.storage ∧
    (exchangeCodeForTokens_resume env now resp s f w).timers = w.timers ∧
    (exchangeCodeForTokens_resume env now resp s f w).requests = w.requests ∧
    (exchangeCodeForTokens_resume env now resp s f w).trace =
      w.trace ++ [.call f w.session w.storage] ∧
    calls (exchangeCodeForTokens_resume env now resp s f w).trace = calls w.trace ++ [f] ∧
    (w.session.authenticated = false →
      (exchangeCodeForTokens_resume env now resp s f w).session.authenticated = false) := by
  refine ⟨⟨rfl, rfl, rfl, by simp [exchangeCodeForTokens, calls]⟩, ?_⟩
  simp [exchangeCodeForTokens_resume, h, invoke, calls]

/-- C11, at a concrete input: a code exchange on a freshly loaded page, answered `400`. -/
theorem C11_failed_exchange_keeps_session_witness :
    (Response.http 400 none).rejected = true ∧
    freshWorld.session.authenticated = false ∧
    (exchangeCodeForTokens_resume demoEnv 600 (.http 400 none) (some onSuccess) onFailed
      (exchangeCodeForTokens demoEnv "code" (some onSuccess) onFailed
        freshWorld)).session.authenticated = false ∧
    calls (exchangeCodeForTokens_resume demoEnv 600 (.http 400 none) (some onSuccess) onFailed
      (exchangeCodeForTokens demoEnv "code" (some onSuccess) onFailed freshWorld)).trace
      = [onFailed] :=
  have h := C11_failed_exchange_keeps_session demoEnv 600 (.http 400 none) "code"
    (some onSuccess) onFailed freshWorld
    (exchangeCodeForTokens demoEnv "code" (some onSuccess) onFailed freshWorld) (by decide)
  ⟨by decide, by decide, h.2.2.2.2.2.2.2 (by decide), h.2.2.2.2.2.2.1⟩

/-- C12: for every persisted pair of non-empty strings whose access token decodes with
`exp > now`, `checkAuth` (given a success callback that returns normally) issues no
token-endpoint request, sets `accessToken` and `refreshToken` to the persisted values,
`authenticated` to true and `username` to the `preferred_username` claim when it is present
and non-empty and to `'User'` otherwise, and invokes `onAuthSuccess` once and no other
callback. -/
theorem C12_checkAuth_valid_pair (env : Env) (now now2 : Int) (f g : Callback) (w : World)
    (t r : String) (c : Claims) (e : Int)
    (hst : w.storage.access_token = some t) (hsr : w.storage.refresh_token = some r)
    (ht : t ≠ "") (hr : r ≠ "") (hc : env.decode t = some c) (he : c.exp = some e)
    (hlt : e > now) (hf : f.throws = false) :
    (checkAuth env now now2 (some f) g w).requests = w.requests ∧
    posts (checkAuth env now now2 (some f) g w).trace = posts w.trace ∧
    (checkAuth env now now2 (some f) g w).session.accessToken = .str t ∧
    (checkAuth env now now2 (some f) g w).session.refreshToken = .str r ∧
    (checkAuth env now now2 (some f) g w).session.authenticated = true ∧
    (∀ u, c.preferred_username = some u → u ≠ "" →
      (checkAuth env now now2 (some f) g w).session.username = u) ∧
    (c.preferred_username = none ∨ c.preferred_username = some "" →
      (checkAuth env now now2 (some f) g w).session.username = "User") ∧
    calls (checkAuth env now now2 (some f) g w).trace = calls w.trace ++ [f] := by
  have hres : checkAuth env now now2 (some f) g w =
      handleSuccessfulAuth env now2 (.str t) (.str r) (some f)
        { w with session := { w.session with accessToken := .str t,
                                             refreshToken := .str r } } := by
    simp [checkAuth, hst, hsr, ht, hr, Env.jwt_decode, hc, he, hlt]
  have hd : env.jwt_decode (.str t) = some c := hc
  have hu : (handleSuccessfulAuth env now2 (.str t) (.str r) (some f)
        { w with session := { w.session with accessToken := .str t,
                                             refreshToken := .str r } }).session.username =
      usernameOf c := by
    rw [handleSuccessfulAuth_session, hd]; simp [hf]
  rw [hres]
  refine ⟨by rw [handleSuccessfulAuth_requests], by rw [handleSuccessfulAuth_posts], ?_, ?_,
    ?_, ?_, ?_, ?_⟩
  · rw [handleSuccessfulAuth_session, hd]; simp [hf]
  · rw [handleSuccessfulAuth_session, hd]; simp [hf]
  · rw [handleSuccessfulAuth_session, hd]; simp [hf]
  · intro u hpu hne
    rw [hu]; simp [usernameOf, hpu, hne]
  · rintro (hpu | hpu) <;> rw [hu] <;> simp [usernameOf, hpu]
  · rw [handleSuccessfulAuth_calls, hd]; simp

/-- C12, at concrete inputs: the persisted pair of `aliceWorld`, which expires at second
1000, found at second 500; and a persisted token without `preferred_username`. -/
theorem C12_checkAuth_valid_pair_witness :
    (checkAuth demoEnv 500 501 (some onSuccess) onFailed aliceWorld).requests = [] ∧
    (checkAuth demoEnv 500 501 (some onSuccess) onFailed aliceWorld).session.accessToken
      = .str "alice.admin.1000" ∧
    (checkAuth demoEnv 500 501 (some onSuccess) onFailed aliceWorld).session.refreshToken
      = .str "r1" ∧
    (checkAuth demoEnv 500 501 (some onSuccess) onFailed aliceWorld).session.authenticated
      = true ∧
    (checkAuth demoEnv 500 501 (some onSuccess) onFailed aliceWorld).session.username
      = "alice" ∧
    calls (checkAuth demoEnv 500 501 (some onSuccess) onFailed aliceWorld).trace
      = [onSuccess] ∧
    (checkAuth anonEnv 500 501 (some onSuccess) onFailed
      (World.init ⟨some "anon.1000", some "r1"⟩)).session.username = "User" :=
  have h := C12_checkAuth_valid_pair demoEnv 500 501 onSuccess onFailed aliceWorld
    "alice.admin.1000" "r1" ⟨some "alice", some ["admin"], some 1000⟩ 1000
    (by decide) (by decide) (by decide) (by decide) (by decide) (by decide) (by decide)
    (by decide)
  have h2 := C12_checkAuth_valid_pair anonEnv 500 501 onSuccess onFailed
    (World.init ⟨some "anon.1000", some "r1"⟩)
    "anon.1000" "r1" ⟨none, none, some 1000⟩ 1000
    (by decide) (by decide) (by decide) (by decide) (by decide) (by decide) (by decide)
    (by decide)
  ⟨h.1, h.2.2.1, h.2.2.2.1, h.2.2.2.2.1, h.2.2.2.2.2.1 "alice" rfl (by decide),
    h.2.2.2.2.2.2.2, h2.2.2.2.2.2.2.1 (Or.inl rfl)⟩

/-- C13 (as stated, refuted): a token with ten seconds left is scheduled with the delay
`-20000` ms, which is negative and is not `max(0, exp - now - 30)` seconds. -/
theorem C13_counterexample :
    demoEnv.jwt_decode (.str "alice.admin.1000") =
      some { preferred_username := some "alice", realm_roles := some ["admin"],
             exp := some 1000 } ∧
    (1000 : Int) > 990 ∧
    shortLivedWorld.timers = [⟨-20000, .str "r1", some onSuccess⟩] ∧
    shortLivedWorld.timers.map Timer.delayMs ≠ [max 0 (1000 - 990 - 30) * 1000] := by
  decide

/-- C13 (amended): for every decodable access token with `exp > now`, `handleSuccessfulAuth`
arms one timer whose delay, as passed to `setTimeout`, is `(exp - now - 30) * 1000` ms without
any clamping: it is non-negative exactly when at least 30 seconds are left.  Clamping that
value at zero gives `max(0, exp - now - 30)` seconds. -/
theorem C13_delay_unclamped (env : Env) (now : Int) (a r : JsVal) (cb : Option Callback)
    (w : World) (c : Claims) (e : Int) (hc : env.jwt_decode a = some c) (he : c.exp = some e)
    (hlt : e > now) :
    ∃ t : Timer, (handleSuccessfulAuth env now a r cb w).timers = w.timers ++ [t] ∧
      t.delayMs = (e - now - 30) * 1000 ∧
      (0 ≤ t.delayMs ↔ e - now ≥ 30) ∧
      max 0 t.delayMs = max 0 (e - now - 30) * 1000 := by
  refine ⟨⟨(e - now - 30) * 1000, r, cb⟩, ?_, rfl, ?_, ?_⟩
  · rw [handleSuccessfulAuth_timers, hc]
    have hpos : e - now > 0 := by omega
    simp only [he, hpos, if_true]
  · show 0 ≤ (e - now - 30) * 1000 ↔ e - now ≥ 30
    omega
  · show max 0 ((e - now - 30) * 1000) = max 0 (e - now - 30) * 1000
    omega

/-- C13, at a concrete input: a token that expires at second 1000, installed at second 500. -/
theorem C13_delay_unclamped_witness :
    ∃ t : Timer, (handleSuccessfulAuth demoEnv 500 (.str "alice.admin.1000") (.str "r1")
        (some onSuccess) freshWorld).timers = freshWorld.timers ++ [t] ∧
      t.delayMs = (1000 - 500 - 30) * 1000 ∧
      (0 ≤ t.delayMs ↔ (1000 : Int) - 500 ≥ 30) ∧
      max 0 t.delayMs = max 0 (1000 - 500 - 30) * 1000 :=
  C13_delay_unclamped demoEnv 500 (.str "alice.admin.1000") (.str "r1") (some onSuccess)
    freshWorld ⟨some "alice", some ["admin"], some 1000⟩ 1000 (by decide) (by decide)
    (by decide)

/-- C14: for every persisted pair of non-empty strings whose access token decodes with `exp`
not after `now`, `checkAuth` issues exactly one token-endpoint request, a `refresh_token`
grant carrying the persisted refresh token, and returns with that request in flight and no
callback invoked; the callbacks are held by the request's continuation. -/
theorem C14_checkAuth_expired_pair (env : Env) (now now2 : Int) (s : Option Callback)
    (f : Callback) (w : World) (t r : String) (c : Claims) (e : Int)
    (hst : w.storage.access_token = some t) (hsr : w.storage.refresh_token = some r)
    (ht : t ≠ "") (hr : r ≠ "") (hc : env.decode t = some c) (he : c.exp = some e)
    (hle : e ≤ now) :
    (checkAuth env now now2 s f w).trace =
      w.trace ++ [.post TOKEN_URL (.refresh_token (.str r))] ∧
    posts (checkAuth env now now2 s f w).trace = posts w.trace ++ [.refresh_token (.str r)] ∧
    calls (checkAuth env now now2 s f w).trace = calls w.trace ∧
    (checkAuth env now now2 s f w).requests =
      w.requests ++ [⟨.refresh_token (.str r), s, f⟩] ∧
    (checkAuth env now now2 s f w).timers = w.timers ∧
    (checkAuth env now now2 s f w).session.authenticated = w.session.authenticated := by
  have hn : ¬ now < e := by omega
  have hres : checkAuth env now now2 s f w =
      refreshAccessToken (.str r) s f
        { w with session := { w.session with accessToken := .str t,
                                             refreshToken := .str r } } := by
    simp [checkAuth, hst, hsr, ht, hr, Env.jwt_decode, hc, he, hn]
  rw [hres]
  simp [refreshAccessToken, posts, calls]

/-- C14, at a concrete input: the persisted pair of `aliceWorld`, which expired at second
1000, found at second 2000. -/
theorem C14_checkAuth_expired_pair_witness :
    (checkAuth demoEnv 2000 2000 (some onSuccess) onFailed aliceWorld).trace =
      aliceWorld.trace ++ [.post TOKEN_URL (.refresh_token (.str "r1"))] ∧
    calls (checkAuth demoEnv 2000 2000 (some onSuccess) onFailed aliceWorld).trace =
      calls aliceWorld.trace :=
  have h := C14_checkAuth_expired_pair demoEnv 2000 2000 (some onSuccess) onFailed aliceWorld
    "alice.admin.1000" "r1" ⟨some "alice", some ["admin"], some 1000⟩ 1000
    (by decide) (by decide) (by decide) (by decide) (by decide) (by decide) (by decide)
  ⟨h.1, h.2.2.1⟩

/-- C15: for every refresh answered `2xx` with a new pair of strings whose access token
decodes with `exp > now` (and a success callback that returns normally), the session ends
authenticated with the new tokens, both persisted keys hold exactly the new values whatever
they held before, one refresh timer is armed for the new pair, and `onAuthSuccess` is invoked
once and no other callback. -/
theorem C15_successful_refresh (env : Env) (now : Int) (status : Nat) (a r : String)
    (f g : Callback) (w : World) (c : Claims) (e : Int)
    (hst : (Response.http status (some (.str a, .str r))).rejected = false)
    (hc : env.decode a = some c) (he : c.exp = some e) (hlt : e > now)
    (hf : f.throws = false) :
    (refreshAccessToken_resume env now (.http status (some (.str a, .str r)))
      (some f) g w).session.authenticated = true ∧
    (refreshAccessToken_resume env now (.http status (some (.str a, .str r)))
      (some f) g w).session.accessToken = .str a ∧
    (refreshAccessToken_resume env now (.http status (some (.str a, .str r)))
      (some f) g w).session.refreshToken = .str r ∧
    (refreshAccessToken_resume env now (.http status (some (.str a, .str r)))
      (some f) g w).storage = { access_token := some a, refresh_token := some r } ∧
    (refreshAccessToken_resume env now (.http status (some (.str a, .str r)))
      (some f) g w).timers = w.timers ++ [⟨(e - now - 30) * 1000, .str r, some f⟩] ∧
    calls (refreshAccessToken_resume env now (.http status (some (.str a, .str r)))
      (some f) g w).trace = calls w.trace ++ [f] := by
  have hres : refreshAccessToken_resume env now (.http status (some (.str a, .str r)))
      (some f) g w = handleSuccessfulAuth env now (.str a) (.str r) (some f) w := by
    simp [refreshAccessToken_resume, hst]
  have hd : env.jwt_decode (.str a) = some c := hc
  have hpos : e - now > 0 := by omega
  rw [hres]
  refine ⟨?_, ?_, ?_, ?_, ?_, ?_⟩
  · rw [handleSuccessfulAuth_session, hd]; simp [hf]
  · rw [handleSuccessfulAuth_session, hd]; simp [hf]
  · rw [handleSuccessfulAuth_session, hd]; simp [hf]
  · rw [handleSuccessfulAuth_storage, hd]; simp [hf, JsVal.toStr]
  · rw [handleSuccessfulAuth_timers, hd]; simp only [he, hpos, if_true]
  · rw [handleSuccessfulAuth_calls, hd]; simp

/-- C15, at a concrete input: the pending refresh of `pendingRefreshWorld` answered at second
600 with the pair `bob.Admin.1000`, `r2`. -/
theorem C15_successful_refresh_witness :
    (refreshAccessToken_resume demoEnv 600 (.http 200 (some (.str "bob.Admin.1000", .str "r2")))
      (some onSuccess) onFailed pendingRefreshWorld).session.authenticated = true ∧
    pendingRefreshWorld.storage = ⟨some "alice.admin.1000", some "r1"⟩ ∧
    (refreshAccessToken_resume demoEnv 600 (.http 200 (some (.str "bob.Admin.1000", .str "r2")))
      (some onSuccess) onFailed pendingRefreshWorld).storage
      = { access_token := some "bob.Admin.1000", refresh_token := some "r2" } :=
  have h := C15_successful_refresh demoEnv 600 200 "bob.Admin.1000" "r2" onSuccess onFailed
    pendingRefreshWorld ⟨some "bob", some ["Admin"], some 1000⟩ 1000
    (by decide) (by decide) (by decide) (by decide) (by decide)
  ⟨h.1, by decide, h.2.2.2.1⟩

/-- C16: for every session state, `logout()` first runs `clearTokens`, which removes both
persisted keys and resets every session field, and only then issues the navigation: the trace
gains the two removals followed by the navigation to the logout URL with `client_id` and
`post_logout_redirect_uri` set to the page's origin and path. -/
theorem C16_logout_clears_then_navigates (env : Env) (w : World) :
    logout env w =
      { clearTokens w with trace := (clearTokens w).trace ++ [.navigate LOGOUT_URL
          [("client_id", CLIENT_ID), ("post_logout_redirect_uri", env.REDIRECT_URI)]] } ∧
    (clearTokens w).session =
      { accessToken := .str "", refreshToken := .str "", authenticated := false,
        username := "", userRoles := [] } ∧
    (clearTokens w).storage = { access_token := none, refresh_token := none } ∧
    (logout env w).session =
      { accessToken := .str "", refreshToken := .str "", authenticated := false,
        username := "", userRoles := [] } ∧
    (logout env w).storage = { access_token := none, refresh_token := none } ∧
    (logout env w).trace =
      w.trace ++ [.removeItem "access_token", .removeItem "refresh_token",
        .navigate "http://localhost:8000/auth/realms/ecommerce/protocol/openid-connect/logout"
          [("client_id", "ecommerce-app"), ("post_logout_redirect_uri", env.REDIRECT_URI)]] := by
  refine ⟨rfl, rfl, rfl, rfl, rfl, ?_⟩
  have hu : LOGOUT_URL =
      "http://localhost:8000/auth/realms/ecommerce/protocol/openid-connect/logout" := by
    decide
  simp [logout, clearTokens, hu, CLIENT_ID]

/-- The session that the callback of `handleSuccessfulAuth` observes. -/
theorem handleSuccessfulAuth_call_mem (env : Env) (now : Int) (a r : JsVal) (f : Callback)
    (w : World) (c : Claims) (hc : env.jwt_decode a = some c) :
    Event.call f (installed env a r c w.session.userRoles) ⟨some a.toStr, some r.toStr⟩ ∈
      (handleSuccessfulAuth env now a r (some f) w).trace := by
  rw [handleSuccessfulAuth_trace, hc]
  simp

/-- C17: for every access token, refresh token, callback and prior state, a second
`handleSuccessfulAuth` with the same tokens (at any later clock reading) leaves the session
fields `accessToken`, `refreshToken`, `authenticated`, `username`, `userRoles` and the
persisted pair as the first call left them. -/
theorem C17_handleSuccessfulAuth_idempotent (env : Env) (now1 now2 : Int) (a r : JsVal)
    (cb : Option Callback) (w : World) :
    (handleSuccessfulAuth env now2 a r cb (handleSuccessfulAuth env now1 a r cb w)).session =
      (handleSuccessfulAuth env now1 a r cb w).session ∧
    (handleSuccessfulAuth env now2 a r cb (handleSuccessfulAuth env now1 a r cb w)).storage =
      (handleSuccessfulAuth env now1 a r cb w).storage := by
  constructor
  · rw [handleSuccessfulAuth_session env now2, handleSuccessfulAuth_session env now1]
    cases env.jwt_decode a with
    | none => rfl
    | some c =>
      rcases c with ⟨u, roles, e⟩
      cases cb.any (fun f => f.throws) with
      | true => rfl
      | false => cases roles <;> simp
  · rw [handleSuccessfulAuth_storage env now2, handleSuccessfulAuth_storage env now1]

/-- C18: for every decodable access token whose `realm_access.roles` is `[r1, ..., rn]`,
`handleSuccessfulAuth` sets `userRoles` to `['ROLE_' + uppercase(r1), ...]`, of the same
length and in the same order: that is what the callback observes, and what the session holds
in the end unless the callback throws. -/
theorem C18_roles_prefixed_uppercased (env : Env) (now : Int) (a r : JsVal)
    (cb : Option Callback) (w : World) (c : Claims) (roles : List String)
    (hc : env.jwt_decode a = some c) (hr : c.realm_roles = some roles) :
    (cb.any (fun f => f.throws) = false →
      (handleSuccessfulAuth env now a r cb w).session.userRoles =
        roles.map (fun role => "ROLE_" ++ env.toUpperCase role) ∧
      (handleSuccessfulAuth env now a r cb w).session.userRoles.length = roles.length ∧
      ∀ i : Nat, (handleSuccessfulAuth env now a r cb w).session.userRoles[i]? =
        roles[i]?.map (fun role => "ROLE_" ++ env.toUpperCase role)) ∧
    (∀ f, cb = some f → ∃ session storage,
      Event.call f session storage ∈ (handleSuccessfulAuth env now a r cb w).trace ∧
      session.userRoles = roles.map (fun role => "ROLE_" ++ env.toUpperCase role)) := by
  constructor
  · intro hcb
    have h : (handleSuccessfulAuth env now a r cb w).session.userRoles =
        roles.map (fun role => "ROLE_" ++ env.toUpperCase role) := by
      rw [handleSuccessfulAuth_session, hc]
      simp [hcb, hr, mapRoles]
    refine ⟨h, ?_, ?_⟩
    · rw [h, List.length_map]
    · intro i; rw [h, List.getElem?_map]
  · intro f hf
    subst hf
    refine ⟨_, _, handleSuccessfulAuth_call_mem env now a r f w c hc, ?_⟩
    simp [installed, hr, mapRoles]

/-- C18, at a concrete input: a token whose only realm role is `Admin`. -/
theorem C18_roles_prefixed_uppercased_witness :
    (handleSuccessfulAuth demoEnv 500 (.str "bob.Admin.1000") (.str "r1") (some onSuccess)
      freshWorld).session.userRoles =
      ["Admin"].map (fun role => "ROLE_" ++ demoEnv.toUpperCase role) ∧
    ["Admin"].map (fun role => "ROLE_" ++ demoEnv.toUpperCase role) = ["ROLE_ADMIN"] :=
  have h := C18_roles_prefixed_uppercased demoEnv 500 (.str "bob.Admin.1000") (.str "r1")
    (some onSuccess) freshWorld ⟨some "bob", some ["Admin"], some 1000⟩ ["Admin"]
    (by decide) (by decide)
  ⟨(h.1 (by decide)).1, by decide⟩

/-- C19: for every session state, `getAuthHeader()` returns the single header
`Authorization: Bearer <accessToken>` when `accessToken` is a non-empty string and the empty
header set when it is empty (or `undefined`); it is a function of the session alone, which it
only reads. -/
theorem C19_getAuthHeader (s : Session) :
    (∀ t, s.accessToken = .str t → t ≠ "" →
      getAuthHeader s = [("Authorization", "Bearer " ++ t)]) ∧
    (s.accessToken = .str "" → getAuthHeader s = []) ∧
    (s.accessToken = .undefined → getAuthHeader s = []) ∧
    (getAuthHeader s).length ≤ 1 := by
  refine ⟨?_, ?_, ?_, ?_⟩
  · intro t ht hne
    simp [getAuthHeader, ht, JsVal.truthy, JsVal.toStr, hne]
  · intro ht
    simp [getAuthHeader, ht, JsVal.truthy]
  · intro ht
    simp [getAuthHeader, ht, JsVal.truthy]
  · unfold getAuthHeader
    split <;> simp

/-- C19, at concrete states: an authenticated session and the empty session. -/
theorem C19_getAuthHeader_witness :
    getAuthHeader authedWorld.session = [("Authorization", "Bearer alice.admin.1000")] ∧
    getAuthHeader Session.empty = [] :=
  ⟨by rw [(C19_getAuthHeader authedWorld.session).1 "alice.admin.1000" (by decide)
      (by decide)]; decide,
   (C19_getAuthHeader Session.empty).2.1 rfl⟩

/-- C20: for every decodable access token, `handleSuccessfulAuth` sets `username` to the
`preferred_username` claim when it is present and non-empty and to `'User'` otherwise: that is
what the callback observes, and what the session holds in the end unless the callback
throws. -/
theorem C20_username_from_claims (env : Env) (now : Int) (a r : JsVal)
    (cb : Option Callback) (w : World) (c : Claims) (hc : env.jwt_decode a = some c) :
    ((∀ u, c.preferred_username = some u → u ≠ "" → usernameOf c = u) ∧
     (c.preferred_username = none ∨ c.preferred_username = some "" →
       usernameOf c = "User")) ∧
    (cb.any (fun f => f.throws) = false →
      (handleSuccessfulAuth env now a r cb w).session.username = usernameOf c) ∧
    (∀ f, cb = some f → ∃ session storage,
      Event.call f session storage ∈ (handleSuccessfulAuth env now a r cb w).trace ∧
      session.username = usernameOf c) := by
  refine ⟨⟨?_, ?_⟩, ?_, ?_⟩
  · intro u hu hne
    simp [usernameOf, hu, hne]
  · rintro (hu | hu) <;> simp [usernameOf, hu]
  · intro hcb
    rw [handleSuccessfulAuth_session, hc]
    simp [hcb]
  · intro f hf
    subst hf
    exact ⟨_, _, handleSuccessfulAuth_call_mem env now a r f w c hc, rfl⟩

/-- C20, at a concrete input: a token whose `preferred_username` is `dave`. -/
theorem C20_username_from_claims_witness :
    (handleSuccessfulAuth demoEnv 500 (.str "dave.noexp") (.str "r1") (some onSuccess)
      freshWorld).session.username = "dave" :=
  have h := C20_username_from_claims demoEnv 500 (.str "dave.noexp") (.str "r1")
    (some onSuccess) freshWorld ⟨some "dave", some ["user"], none⟩ (by decide)
  (h.2.1 (by decide)).trans (h.1.1 "dave" rfl (by decide))

/-- C24: for every decodable access token, one call of `handleSuccessfulAuth` arms a timer iff
`exp - now > 0` (never when `exp` is absent), and then exactly one, added to the pending ones;
its delay is `(exp - now - 30) * 1000` ms, and when it fires it calls `refreshAccessToken` with
the refresh token and the callback of that call. -/
theorem C24_timer_armed_iff (env : Env) (now : Int) (a r : JsVal) (cb : Option Callback)
    (w : World) (c : Claims) (hc : env.jwt_decode a = some c) :
    (∀ e, c.exp = some e → e - now > 0 →
      (handleSuccessfulAuth env now a r cb w).timers =
        w.timers ++ [⟨(e - now - 30) * 1000, r, cb⟩]) ∧
    (∀ e, c.exp = some e → ¬ e - now > 0 →
      (handleSuccessfulAuth env now a r cb w).timers = w.timers) ∧
    (c.exp = none → (handleSuccessfulAuth env now a r cb w).timers = w.timers) ∧
    (∀ (t : Timer) (w2 : World) (i : Nat), t.refreshTokenValue = r → t.callback = cb →
      w2.timers.get? i = some t →
      step env w2 (.fire i) =
        refreshAccessToken r cb noop { w2 with timers := w2.timers.eraseIdx i }) := by
  refine ⟨?_, ?_, ?_, ?_⟩
  · intro e he hpos
    rw [handleSuccessfulAuth_timers, hc]
    simp only [he, hpos, if_true]
  · intro e he hneg
    rw [handleSuccessfulAuth_timers, hc]
    simp only [he, hneg, if_false]
  · intro he
    rw [handleSuccessfulAuth_timers, hc]
    simp only [he]
  · intro t w2 i hr hcb ht
    simp only [step, ht, hr, hcb]

/-- C24, at a concrete input: a token that expires at second 1000, installed at second 500. -/
theorem C24_timer_armed_iff_witness :
    (handleSuccessfulAuth demoEnv 500 (.str "alice.admin.1000") (.str "r1") (some onSuccess)
      freshWorld).timers = freshWorld.timers ++ [⟨(1000 - 500 - 30) * 1000, .str "r1",
        some onSuccess⟩] ∧
    (handleSuccessfulAuth demoEnv 1000 (.str "alice.admin.1000") (.str "r1") (some onSuccess)
      freshWorld).timers = freshWorld.timers :=
  ⟨(C24_timer_armed_iff demoEnv 500 (.str "alice.admin.1000") (.str "r1") (some onSuccess)
      freshWorld ⟨some "alice", some ["admin"], some 1000⟩ (by decide)).1 1000 rfl
      (by decide),
   (C24_timer_armed_iff demoEnv 1000 (.str "alice.admin.1000") (.str "r1") (some onSuccess)
      freshWorld ⟨some "alice", some ["admin"], some 1000⟩ (by decide)).2.1 1000 rfl
      (by decide)⟩

/-- C25 (as stated, refuted): with both keys present, `access_token` holding the empty string,
which the decoder rejects, `checkAuth` runs `onAuthFailed` and leaves both persisted keys in
place. -/
theorem C25_counterexample :
    emptyAccessWorld.storage.access_token = some "" ∧
    emptyAccessWorld.storage.refresh_token = some "r1" ∧
    demoEnv.jwt_decode (.str "") = none ∧
    (checkAuth demoEnv 500 500 (some onSuccess) onFailed emptyAccessWorld).storage =
      { access_token := some "", refresh_token := some "r1" } ∧
    (checkAuth demoEnv 500 500 (some onSuccess) onFailed emptyAccessWorld).storage ≠
      { access_token := none, refresh_token := none } ∧
    (checkAuth demoEnv 500 500 (some onSuccess) onFailed emptyAccessWorld).trace =
      [.call onFailed Session.empty { access_token := some "", refresh_token := some "r1" }] := by
  decide

/-- C25 (amended): on a freshly loaded page, when a persisted key is missing or holds the
empty string, or both hold non-empty strings and the decoder rejects the access token,
`checkAuth` issues no request, arms no timer, invokes `onAuthFailed` once and no other
callback, and leaves `authenticated` false.  With a key missing or empty the storage is left
as it was, whatever the other key holds; with two non-empty strings and an undecodable access
token both keys are removed. -/
theorem C25_checkAuth_without_usable_pair (env : Env) (now now2 : Int) (s : Option Callback)
    (f : Callback) (storage : Storage) :
    (storage.access_token = none ∨ storage.access_token = some "" ∨
        storage.refresh_token = none ∨ storage.refresh_token = some "" →
      (checkAuth env now now2 s f (World.init storage)).requests = [] ∧
      posts (checkAuth env now now2 s f (World.init storage)).trace = [] ∧
      (checkAuth env now now2 s f (World.init storage)).timers = [] ∧
      calls (checkAuth env now now2 s f (World.init storage)).trace = [f] ∧
      (checkAuth env now now2 s f (World.init storage)).session.authenticated = false ∧
      (checkAuth env now now2 s f (World.init storage)).storage = storage) ∧
    (∀ t r, storage.access_token = some t → storage.refresh_token = some r → t ≠ "" →
      r ≠ "" → env.decode t = none →
      (checkAuth env now now2 s f (World.init storage)).requests = [] ∧
      posts (checkAuth env now now2 s f (World.init storage)).trace = [] ∧
      (checkAuth env now now2 s f (World.init storage)).timers = [] ∧
      calls (checkAuth env now now2 s f (World.init storage)).trace = [f] ∧
      (checkAuth env now now2 s f (World.init storage)).session.authenticated = false ∧
      (checkAuth env now now2 s f (World.init storage)).storage =
        { access_token := none, refresh_token := none }) := by
  constructor
  · intro h
    have hres : checkAuth env now now2 s f (World.init storage) =
        invoke f (World.init storage) := by
      rcases storage with ⟨sa, sr⟩
      rcases h with h | h | h | h <;> simp only at h <;> subst h
      · rfl
      · cases sr <;> simp [checkAuth, World.init]
      · cases sa <;> rfl
      · cases sa <;> simp [checkAuth, World.init]
    rw [hres]
    simp [invoke, World.init, posts, calls, Session.empty]
  · intro t r hst hsr ht hr hd
    have hres : checkAuth env now now2 s f (World.init storage) =
        invoke f (clearTokens { World.init storage with
          session := { (World.init storage).session with accessToken := .str t,
                                                         refreshToken := .str r } }) := by
      simp [checkAuth, World.init, hst, hsr, ht, hr, Env.jwt_decode, hd]
    rw [hres]
    simp [invoke, clearTokens, World.init, posts, calls, Session.empty]

/-- C25, at concrete inputs: an empty `localStorage`, an `access_token` key holding the empty
string, and a persisted pair whose access token is `garbage`. -/
theorem C25_checkAuth_without_usable_pair_witness :
    calls (checkAuth demoEnv 500 500 (some onSuccess) onFailed
      (World.init ⟨none, none⟩)).trace = [onFailed] ∧
    (checkAuth demoEnv 500 500 (some onSuccess) onFailed emptyAccessWorld).storage =
      { access_token := some "", refresh_token := some "r1" } ∧
    (checkAuth demoEnv 500 500 (some onSuccess) onFailed
      (World.init ⟨some "garbage", some "r1"⟩)).storage =
      { access_token := none, refresh_token := none } :=
  ⟨((C25_checkAuth_without_usable_pair demoEnv 500 500 (some onSuccess) onFailed
      ⟨none, none⟩).1 (Or.inl rfl)).2.2.2.1,
   ((C25_checkAuth_without_usable_pair demoEnv 500 500 (some onSuccess) onFailed
      ⟨some "", some "r1"⟩).1 (Or.inr (Or.inl rfl))).2.2.2.2.2,
   ((C25_checkAuth_without_usable_pair demoEnv 500 500 (some onSuccess) onFailed
      ⟨some "garbage", some "r1"⟩).2 "garbage" "r1" rfl rfl (by decide) (by decide)
      (by decide)).2.2.2.2.2⟩

theorem get?_append_length (l : List Pending) (p : Pending) :
    (l ++ [p]).get? l.length = some p := by
  simp

theorem eraseIdx_append_length (l : List Pending) (p : Pending) :
    (l ++ [p]).eraseIdx l.length = l := by
  induction l with
  | nil => rfl
  | cons x l ih => simp [List.eraseIdx, ih]

/-- C26: `clearTokens`, and with it `logout`, a failed refresh and a failed decode, leaves the
pending timers as they were.  A timer armed earlier can therefore still fire after the session
has been cleared, and when its refresh is answered `2xx` with a decodable token (and its
callback returns normally) the session is authenticated again, with no navigation issued in
between. -/
theorem C26_timers_survive_clearing (env : Env) (now : Int) (w : World) :
    (clearTokens w).timers = w.timers ∧
    (logout env w).timers = w.timers ∧
    (∀ resp s f, resp.rejected = true →
      (refreshAccessToken_resume env now resp s f w).timers = w.timers) ∧
    (∀ a r cb, env.jwt_decode a = none →
      (handleSuccessfulAuth env now a r cb w).timers = w.timers) ∧
    (∀ (i : Nat) (t : Timer) (status : Nat) (a r : JsVal) (c : Claims),
      w.timers.get? i = some t →
      (Response.http status (some (a, r))).rejected = false →
      env.jwt_decode a = some c → t.callback.any (fun g => g.throws) = false →
      (run env (clearTokens w)
        [.fire i, .respond w.requests.length (.http status (some (a, r))) now]
        ).session.authenticated = true ∧
      (run env (clearTokens w)
        [.fire i, .respond w.requests.length (.http status (some (a, r))) now]
        ).session.accessToken = a ∧
      (run env (clearTokens w)
        [.fire i, .respond w.requests.length (.http status (some (a, r))) now]
        ).trace.filter (fun ev => match ev with
          | .navigate _ _ => true
          | _ => false) =
        w.trace.filter (fun ev => match ev with
          | .navigate _ _ => true
          | _ => false)) := by
  refine ⟨rfl, rfl, ?_, ?_, ?_⟩
  · intro resp s f h
    simp [refreshAccessToken_resume, h, invoke, clearTokens]
  · intro a r cb h
    rw [handleSuccessfulAuth_timers, h]
  · intro i t status a r c ht hst hc hcb
    have h1 : step env (clearTokens w) (.fire i) =
        refreshAccessToken t.refreshTokenValue t.callback noop
          { clearTokens w with timers := w.timers.eraseIdx i } := by
      have ht2 : (clearTokens w).timers.get? i = some t := ht
      simp only [step, ht2]
      rfl
    have h2 : step env (refreshAccessToken t.refreshTokenValue t.callback noop
          { clearTokens w with timers := w.timers.eraseIdx i })
          (.respond w.requests.length (.http status (some (a, r))) now) =
        handleSuccessfulAuth env now a r t.callback
          { clearTokens w with
            timers := w.timers.eraseIdx i
            trace := (clearTokens w).trace ++
              [.post TOKEN_URL (.refresh_token t.refreshTokenValue)] } := by
      have hg : (refreshAccessToken t.refreshTokenValue t.callback noop
          { clearTokens w with timers := w.timers.eraseIdx i }).requests.get?
            w.requests.length = some ⟨.refresh_token t.refreshTokenValue, t.callback, noop⟩ :=
        get?_append_length _ _
      simp only [step, hg, resume, refreshAccessToken_resume, hst]
      simp [refreshAccessToken, clearTokens, eraseIdx_append_length]
    have hrun : run env (clearTokens w)
        [.fire i, .respond w.requests.length (.http status (some (a, r))) now] =
        handleSuccessfulAuth env now a r t.callback
          { clearTokens w with
            timers := w.timers.eraseIdx i
            trace := (clearTokens w).trace ++
              [.post TOKEN_URL (.refresh_token t.refreshTokenValue)] } := by
      simp only [run, List.foldl, h1, h2]
    rw [hrun]
    refine ⟨?_, ?_, ?_⟩
    · rw [handleSuccessfulAuth_session, hc]; simp [hcb]
    · rw [handleSuccessfulAuth_session, hc]; simp [hcb]
    · rw [handleSuccessfulAuth_trace, hc]
      generalize armedTimer c now r t.callback = at0
      rcases t with ⟨d, rt, _ | ⟨n, _ | _⟩⟩ <;> cases at0 <;> simp [clearTokens] at hcb ⊢

/-- C26, at a concrete input: the timer of `authedWorld` fires after the session was cleared
and its refresh is answered with the pair `bob.Admin.1000`, `r2`. -/
theorem C26_timers_survive_clearing_witness :
    authedWorld.timers.get? 0 = some ⟨470000, .str "r1", some onSuccess⟩ ∧
    (clearTokens authedWorld).session.authenticated = false ∧
    (run demoEnv (clearTokens authedWorld)
      [.fire 0, .respond authedWorld.requests.length
        (.http 200 (some (.str "bob.Admin.1000", .str "r2"))) 970]
      ).session.authenticated = true ∧
    resurrectedWorld.session.authenticated = true :=
  ⟨by decide, by decide,
   ((C26_timers_survive_clearing demoEnv 970 authedWorld).2.2.2.2 0
      ⟨470000, .str "r1", some onSuccess⟩ 200 (.str "bob.Admin.1000") (.str "r2")
      ⟨some "bob", some ["Admin"], some 1000⟩ (by decide) (by decide) (by decide)
      (by decide)).1,
   by decide⟩

/-- C27: for every decodable access token, when the success callback throws,
`handleSuccessfulAuth` still returns normally, with the session fully cleared and both
persisted keys removed after the callback ran; the timer armed before the callback stays
pending.  Reached from `exchangeCodeForTokens` or `refreshAccessToken` on a `2xx` response,
the throwing callback is the only callback invoked: `onAuthFailed` does not run. -/
theorem C27_throwing_callback_clears (env : Env) (now : Int) (status : Nat) (a r : JsVal)
    (f g : Callback) (w : World) (c : Claims) (hc : env.jwt_decode a = some c)
    (hf : f.throws = true)
    (hst : (Response.http status (some (a, r))).rejected = false) :
    ((handleSuccessfulAuth env now a r (some f) w).session =
        { accessToken := .str "", refreshToken := .str "", authenticated := false,
          username := "", userRoles := [] } ∧
      (handleSuccessfulAuth env now a r (some f) w).storage =
        { access_token := none, refresh_token := none } ∧
      (handleSuccessfulAuth env now a r (some f) w).trace =
        w.trace ++ [.setItem "access_token" a.toStr, .setItem "refresh_token" r.toStr] ++
          (armedTimer c now r (some f)).toList.map Event.setTimeout ++
          [.call f (installed env a r c w.session.userRoles) ⟨some a.toStr, some r.toStr⟩,
           .removeItem "access_token", .removeItem "refresh_token"] ∧
      (∀ e, c.exp = some e → e > now →
        (handleSuccessfulAuth env now a r (some f) w).timers =
          w.timers ++ [⟨(e - now - 30) * 1000, r, some f⟩])) ∧
    (exchangeCodeForTokens_resume env now (.http status (some (a, r))) (some f) g w =
        handleSuccessfulAuth env now a r (some f) w ∧
      calls (exchangeCodeForTokens_resume env now (.http status (some (a, r))) (some f) g
        w).trace = calls w.trace ++ [f]) ∧
    (refreshAccessToken_resume env now (.http status (some (a, r))) (some f) g w =
        handleSuccessfulAuth env now a r (some f) w ∧
      calls (refreshAccessToken_resume env now (.http status (some (a, r))) (some f) g
        w).trace = calls w.trace ++ [f]) := by
  have he : exchangeCodeForTokens_resume env now (.http status (some (a, r))) (some f) g w =
      handleSuccessfulAuth env now a r (some f) w := by
    simp [exchangeCodeForTokens_resume, hst]
  have hr : refreshAccessToken_resume env now (.http status (some (a, r))) (some f) g w =
      handleSuccessfulAuth env now a r (some f) w := by
    simp [refreshAccessToken_resume, hst]
  have hcalls : calls (handleSuccessfulAuth env now a r (some f) w).trace =
      calls w.trace ++ [f] := by
    rw [handleSuccessfulAuth_calls, hc]; simp
  refine ⟨⟨?_, ?_, ?_, ?_⟩, ⟨he, by rw [he]; exact hcalls⟩,
    ⟨hr, by rw [hr]; exact hcalls⟩⟩
  · rw [handleSuccessfulAuth_session, hc]; simp [hf, Session.empty]
  · rw [handleSuccessfulAuth_storage, hc]; simp [hf]
  · rw [handleSuccessfulAuth_trace, hc]; simp [hf]
  · intro e hexp hlt
    have hpos : e - now > 0 := by omega
    rw [handleSuccessfulAuth_timers, hc]
    simp only [hexp, hpos, if_true]

/-- C27, at a concrete input: a code exchange answered at second 500 with a token that expires
at second 1000, with a success callback that throws. -/
theorem C27_throwing_callback_clears_witness :
    (handleSuccessfulAuth demoEnv 500 (.str "alice.admin.1000") (.str "r1")
      (some onSuccessThrowing) freshWorld).session =
      { accessToken := .str "", refreshToken := .str "", authenticated := false,
        username := "", userRoles := [] } ∧
    calls (exchangeCodeForTokens_resume demoEnv 500
      (.http 200 (some (.str "alice.admin.1000", .str "r1"))) (some onSuccessThrowing) onFailed
      freshWorld).trace = calls freshWorld.trace ++ [onSuccessThrowing] :=
  have h := C27_throwing_callback_clears demoEnv 500 200 (.str "alice.admin.1000") (.str "r1")
    onSuccessThrowing onFailed freshWorld ⟨some "alice", some ["admin"], some 1000⟩
    (by decide) (by decide) (by decide)
  ⟨h.1.1, h.2.1.2⟩

end AuthService

/-! ## The keycloak-js front-end: theorems -/

namespace KeycloakService

open AuthService (Callback JsVal)

theorem getHeader_setHeader_same (key value : String) (hs : List (String × String)) :
    getHeader key (setHeader key value hs) = some value := by
  induction hs with
  | nil => simp [setHeader, getHeader]
  | cons x rest ih =>
    rcases x with ⟨k, v⟩
    by_cases h : k = key
    · simp [setHeader, getHeader, h]
    · simp [setHeader, getHeader, h, ih]

theorem getHeader_setHeader_ne (key value other : String) (hs : List (String × String))
    (hne : other ≠ key) : getHeader other (setHeader key value hs) = getHeader other hs := by
  induction hs with
  | nil => simp [setHeader, getHeader, Ne.symm hne]
  | cons x rest ih =>
    rcases x with ⟨k, v⟩
    by_cases h : k = key
    · subst h; simp [setHeader, getHeader, Ne.symm hne]
    · by_cases h2 : k = other
      · subst h2; simp [setHeader, getHeader, h]
      · simp [setHeader, getHeader, h, h2, ih]

/-- C21: the request interceptor of the product API client sets `Authorization` to
`'Bearer ' + getToken()` when `isAuthenticated()` is truthy and leaves the headers as they are
otherwise; every other header and every other field of the configuration is unchanged. -/
theorem C21_request_interceptor (kc : Keycloak) (config : RequestConfig) :
    (truthy (isAuthenticated kc) = true →
      getHeader "Authorization" (requestInterceptor kc config).headers =
        some ("Bearer " ++ (getToken kc).toStr) ∧
      ∀ key, key ≠ "Authorization" →
        getHeader key (requestInterceptor kc config).headers = getHeader key config.headers) ∧
    (truthy (isAuthenticated kc) = false → requestInterceptor kc config = config) ∧
    (requestInterceptor kc config).url = config.url ∧
    (requestInterceptor kc config).method = config.method ∧
    (requestInterceptor kc config).data = config.data ∧
    (requestInterceptor kc config).timeout = config.timeout := by
  unfold requestInterceptor
  cases h : truthy (isAuthenticated kc) with
  | false => simp
  | true =>
    refine ⟨fun _ => ⟨getHeader_setHeader_same _ _ _, ?_⟩, ?_, rfl, rfl, rfl, rfl⟩
    · intro key hne
      exact getHeader_setHeader_ne _ _ _ _ hne
    · intro hf; cases hf

/-- C21, at concrete inputs: an authenticated instance with token `tok`, and an instance that
has not been initialised. -/
theorem C21_request_interceptor_witness :
    getHeader "Authorization" (requestInterceptor ⟨some true, .str "tok"⟩ demoConfig).headers =
      some "Bearer tok" ∧
    getHeader "Content-Type" (requestInterceptor ⟨some true, .str "tok"⟩ demoConfig).headers =
      some "application/json" ∧
    requestInterceptor ⟨none, .undefined⟩ demoConfig = demoConfig :=
  ⟨((C21_request_interceptor ⟨some true, .str "tok"⟩ demoConfig).1 rfl).1,
   (((C21_request_interceptor ⟨some true, .str "tok"⟩ demoConfig).1 rfl).2 "Content-Type"
      (by decide)).trans (by decide),
   (C21_request_interceptor ⟨none, .undefined⟩ demoConfig).2.1 rfl⟩

/-- C22: one tick of the periodic refresh calls `updateToken(70)` and then dispatches
`keycloak-token-refresh` exactly once when the promise resolves with `refreshed = true`,
dispatches nothing when it resolves with `false`, and calls `keycloak.login()` without
dispatching when it rejects; nothing else of the module state changes. -/
theorem C22_tick_dispatches_on_refresh (s : State) :
    (tick (.resolved true) s).trace =
      s.trace ++ [.updateToken 70, .dispatchEvent "keycloak-token-refresh"] ∧
    (tick (.resolved false) s).trace = s.trace ++ [.updateToken 70] ∧
    (tick .rejected s).trace = s.trace ++ [.updateToken 70, .login] ∧
    (∀ outcome, (tick outcome s).trace.count (.dispatchEvent "keycloak-token-refresh") =
      s.trace.count (.dispatchEvent "keycloak-token-refresh") +
        (if outcome = .resolved true then 1 else 0)) ∧
    (∀ outcome, (tick outcome s).trace.count .login =
      s.trace.count .login + (if outcome = .rejected then 1 else 0)) ∧
    (∀ outcome, (tick outcome s).keycloak = s.keycloak ∧
      (tick outcome s).initialized = s.initialized ∧
      (tick outcome s).initializationPromise = s.initializationPromise ∧
      (tick outcome s).intervals = s.intervals) := by
  refine ⟨by simp [tick], by simp [tick], by simp [tick], ?_, ?_, ?_⟩
  · intro outcome
    rcases outcome with (_ | _) | _ <;> simp [tick, List.count_append]
  · intro outcome
    rcases outcome with (_ | _) | _ <;> simp [tick, List.count_append]
  · intro outcome
    rcases outcome with (_ | _) | _ <;> simp [tick]

theorem count_waiterFulfilled (e : Effect) (he : ∀ cb, e ≠ .call cb)
    (ws : List (Callback × Callback)) : (ws.flatMap waiterFulfilled).count e = 0 := by
  rw [List.count_eq_zero]
  intro hm
  obtain ⟨wt, _, hw⟩ := List.mem_flatMap.mp hm
  unfold waiterFulfilled at hw
  split at hw <;> simp at hw
  · rcases hw with hw | hw <;> exact he _ hw
  · exact he _ hw

theorem count_waiterRejected (e : Effect) (he : ∀ cb, e ≠ .call cb)
    (ws : List (Callback × Callback)) : (ws.flatMap waiterRejected).count e = 0 := by
  rw [List.count_eq_zero]
  intro hm
  obtain ⟨wt, _, hw⟩ := List.mem_flatMap.mp hm
  simp [waiterRejected] at hw
  exact he _ hw

theorem initInv_initial : Inv State.initial := by
  simp [Inv, State.initial, inits, installs]

theorem initInv_initKeycloak (f g : Callback) (s : State) (h : Inv s) :
    Inv (initKeycloak f g s) := by
  unfold initKeycloak
  rcases s with ⟨kc, ini, pr, n, tr⟩
  cases ini <;> cases pr <;>
    simp_all [Inv, inits, installs, List.count_append, waiterFulfilled, waiterRejected]
  split <;> simp_all

theorem initInv_tick (o : Outcome) (s : State) (h : Inv s) : Inv (tick o s) := by
  rcases s with ⟨kc, ini, pr, n, tr⟩
  rcases o with (_ | _) | _ <;> cases pr <;>
    simp_all [Inv, tick, inits, installs, List.count_append]

theorem initInv_settle (o : Outcome) (token : JsVal) (s : State) (h : Inv s) :
    Inv (settle o token s) := by
  rcases s with ⟨kc, ini, pr, n, tr⟩
  cases pr with
  | pending f g ws =>
    have h1 := count_waiterFulfilled .init (by intro cb hc; cases hc) ws
    have h2 := count_waiterFulfilled (.setInterval 60000) (by intro cb hc; cases hc) ws
    have h3 := count_waiterRejected .init (by intro cb hc; cases hc) ws
    have h4 := count_waiterRejected (.setInterval 60000) (by intro cb hc; cases hc) ws
    rcases o with (_ | _) | _ <;> rcases f with ⟨fn, _ | _⟩ <;>
      simp_all [Inv, settle, initTokenRefresh, inits, installs, List.count_append]
  | null => exact h
  | fulfilled => exact h
  | rejected => exact h

theorem initInv_step (s : State) (op : Op) (h : Inv s) : Inv (step s op) := by
  cases op with
  | initKeycloak f g => exact initInv_initKeycloak f g s h
  | settle o token => exact initInv_settle o token s h
  | tick o =>
    simp only [step]
    split
    · exact initInv_tick o s h
    · exact h

theorem initInv_run (ops : List Op) : ∀ s, Inv s → Inv (run s ops) := by
  induction ops with
  | nil => intro s h; exact h
  | cons op ops ih => intro s h; exact ih _ (initInv_step s op h)

/-- C23: for every sequence of `initKeycloak` calls, settlements of `keycloak.init` and ticks,
starting from the module as loaded, `keycloak.init` is called at most once and the periodic
refresh timer is installed at most once. -/
theorem C23_single_initialisation (ops : List Op) :
    inits (run State.initial ops).trace ≤ 1 ∧
    installs (run State.initial ops).trace ≤ 1 ∧
    (run State.initial ops).intervals ≤ 1 := by
  have h := initInv_run ops State.initial initInv_initial
  unfold Inv at h
  split at h <;> omega

/-- C23, on a concrete sequence: three calls of `initKeycloak` around a successful
initialisation make one `keycloak.init` call and install one interval timer. -/
theorem C23_single_initialisation_witness :
    inits (run State.initial demoOps).trace = 1 ∧
    installs (run State.initial demoOps).trace = 1 ∧
    (run State.initial demoOps).trace =
      [.init, .setInterval 60000, .call AuthService.onSuccess, .call AuthService.onSuccess,
       .call AuthService.onSuccess, .updateToken 70, .dispatchEvent "keycloak-token-refresh",
       .updateToken 70, .login] ∧
    inits (run State.initial demoOps).trace ≤ 1 :=
  ⟨by decide, by decide, by decide, (C23_single_initialisation demoOps).1⟩

end KeycloakService
